import Mathlib

/-!
# Verification of the accbroadcastingsdk protocol core

A shallow embedding of the Go UDP broadcasting client (package network):
the binary wire codec (Marshal / Unmarshal functions), the entry-list
coherency cache and the datagram handling step of ConnectAndRun, together
with theorems about them.

Modelling conventions:

* A Go byte is a Nat (values 0..255 on real data); a Go byte slice or
  string is a List Nat.  Machine integers are Nat / Int with explicit
  two's-complement conversion where the code reads signed fields.
* float32 fields are carried as their raw 4-byte little-endian bit
  pattern (a Nat); the modelled code never computes with them.
* bytes.Buffer reads: binary.Read of a w-byte value consumes
  min w (buffer length) bytes; it fails (returns an error, hence ok=false
  in the callers) exactly when fewer than w bytes remain, in which case
  the buffer is left drained (io.ReadFull consumes everything available).
* bytes.Buffer writes never fail, so the write helpers return ok=true;
  socket writes are modelled as complete successful writes, since the
  properties verified here concern message handling, not transport faults.
* Go zero values: fields whose read fails or is skipped keep value 0
  (empty list for slices and strings), as in Go.
-/

namespace ACCBroadcast

/-- A Go byte string (string or byte slice): a list of byte values. -/
abbrev GoStr := List Nat

/-- Value of a little-endian byte list. -/
def leVal : List Nat → Nat
  | [] => 0
  | b :: bs => b + 256 * leVal bs

/-- Little-endian encoding of v (mod 2 to the 8*w) in w bytes. -/
def leBytes : Nat → Nat → List Nat
  | 0, _ => []
  | w + 1, v => (v % 256) :: leBytes w (v / 256)

/-- Two's-complement reading of an unsigned w-bit value. -/
def sint (w : Nat) (v : Nat) : Int :=
  if v < 2 ^ (w - 1) then (v : Int) else (v : Int) - 2 ^ w

/-- State threaded through a decoder: the ok flag and the remaining buffer.
ok=false means an earlier read failed, so later reads are skipped
(the Go decoders chain reads with ok = ok and read(...)). -/
abbrev RState := Bool × List Nat

/-- binary.Read of a w-byte value from a bytes.Buffer, skipped when ok is
already false.  On a short buffer it consumes all remaining bytes and
fails; otherwise it consumes exactly w bytes. -/
def rdRaw (w : Nat) : RState → List Nat × RState
  | (false, buf) => ([], (false, buf))
  | (true, buf) =>
    if w ≤ buf.length then (buf.take w, (true, buf.drop w)) else ([], (false, []))

/-- readBuffer into a uint8 / byte. -/
def rdU8 (st : RState) : Nat × RState :=
  let r := rdRaw 1 st
  (leVal r.1, r.2)

/-- readBuffer into a uint16 (little-endian). -/
def rdU16 (st : RState) : Nat × RState :=
  let r := rdRaw 2 st
  (leVal r.1, r.2)

/-- readBuffer into an int8 (two's complement). -/
def rdI8 (st : RState) : Int × RState :=
  let r := rdRaw 1 st
  (sint 8 (leVal r.1), r.2)

/-- readBuffer into an int32 (little-endian two's complement). -/
def rdI32 (st : RState) : Int × RState :=
  let r := rdRaw 4 st
  (sint 32 (leVal r.1), r.2)

/-- readBuffer into a float32: the raw little-endian bit pattern. -/
def rdF32 (st : RState) : Nat × RState :=
  let r := rdRaw 4 st
  (leVal r.1, r.2)

/-- Result of readString: the Go function reads a signed 16-bit length and
then that many raw bytes.  A negative length makes make([]byte, length)
abort the process at run time (constructor runtimePanic); a short buffer
returns ok=false with the buffer drained. -/
inductive StrRead where
  | runtimePanic : StrRead
  | failRead : List Nat → StrRead
  | okRead : GoStr → List Nat → StrRead
  deriving DecidableEq

/-- readString from part of the codec: int16 length header (little-endian),
then that many raw bytes.  No check that the length is nonnegative. -/
def readString (buf : List Nat) : StrRead :=
  if 2 ≤ buf.length then
    if sint 16 (leVal (buf.take 2)) < 0 then .runtimePanic
    else if leVal (buf.take 2) ≤ (buf.drop 2).length then
      .okRead ((buf.drop 2).take (leVal (buf.take 2)))
        ((buf.drop 2).drop (leVal (buf.take 2)))
    else .failRead []
  else .failRead []

/-- readString threaded through the decoder state (skipped when ok=false,
like the other reads: ok = ok and readString(...)).  none propagates the
run-time abort of a negative length. -/
def rdStr : RState → Option (GoStr × RState)
  | (false, buf) => some ([], (false, buf))
  | (true, buf) =>
    match readString buf with
    | .runtimePanic => none
    | .failRead rest => some ([], (false, rest))
    | .okRead s rest => some (s, (true, rest))

/-- writeByteBuffer: bytes.Buffer.WriteByte, which never fails. -/
def writeByteBuffer (buffer : List Nat) (b : Nat) : List Nat × Bool :=
  (buffer ++ [b], true)

/-- binary.Write of an int32, little-endian two's complement. -/
def writeBufferI32 (buffer : List Nat) (v : Int) : List Nat × Bool :=
  (buffer ++ leBytes 4 (v % (2 : Int) ^ 32).toNat, true)

/-- binary.Write of a uint16, little-endian. -/
def writeBufferU16 (buffer : List Nat) (v : Nat) : List Nat × Bool :=
  (buffer ++ leBytes 2 v, true)

/-- writeString: int16 length header (the bit pattern of int16(len s),
i.e. len s mod 2 to the 16, little-endian) followed by all the raw bytes
of s, reporting ok=true. -/
def writeString (buffer : List Nat) (s : GoStr) : List Nat × Bool :=
  (buffer ++ leBytes 2 s.length ++ s, true)

/-! ## Message type constants and data structures (part of the codec) -/

def RegisterCommandApplication : Nat := 1
def RequestEntryList : Nat := 10
def RequestTrackData : Nat := 11

def RegistrationResultMsgType : Nat := 1
def RealtimeUpdateMsgType : Nat := 2
def RealtimeCarUpdateMsgType : Nat := 3
def EntryListMsgType : Nat := 4
def TrackDataMsgType : Nat := 5
def EntryListCarMsgType : Nat := 6
def BroadcastingEventMsgType : Nat := 7

def BroadcastingProtocolVersion : Nat := 4
def ReadBufferSize : Nat := 32 * 1024

/-- The reserved invalid-sector sentinel: (2 shifted left by 30) - 1. -/
def InvalidSectorTime : Int := ((2 : Int) <<< 30) - 1

/-- EntryList: the list of car ids (uint16) of the session. -/
abbrev EntryList := List Nat

structure Driver where
  FirstName : GoStr
  LastName : GoStr
  ShortName : GoStr
  Category : Nat
  Nationality : Nat
  deriving DecidableEq

structure EntryListCar where
  Id : Nat
  Model : Nat
  TeamName : GoStr
  RaceNumber : Int
  CupCategory : Nat
  CurrentDriverId : Int
  Nationality : Nat
  Drivers : List Driver
  deriving DecidableEq

structure TrackData where
  Name : GoStr
  Id : Int
  Meters : Int
  deriving DecidableEq

structure Lap where
  LapTimeMs : Int
  CarId : Nat
  DriverId : Nat
  Splits : List Int
  IsInvalid : Nat
  IsValidForBest : Nat
  IsOutLap : Nat
  IsInLap : Nat
  deriving DecidableEq

structure RealTimeUpdate where
  EventIndex : Nat
  SessionIndex : Nat
  SessionType : Nat
  Phase : Nat
  SessionTime : Nat
  SessionEndTime : Nat
  FocusedCarIndex : Int
  ActiveCameraSet : GoStr
  ActiveCamera : GoStr
  CurrentHUDPage : GoStr
  IsReplayPlaying : Nat
  TimeOfDay : Nat
  AmbientTemp : Int
  TrackTemp : Int
  Clouds : Nat
  RainLevel : Nat
  Wettness : Nat
  BestSessionLap : Lap
  deriving DecidableEq

structure RealTimeCarUpdate where
  Id : Nat
  DriverId : Nat
  DriverCount : Nat
  Gear : Int
  WorldPosX : Nat
  WorldPosY : Nat
  Yaw : Nat
  CarLocation : Nat
  Kmh : Nat
  Position : Nat
  CupPosition : Nat
  TrackPosition : Nat
  SplinePosition : Nat
  Laps : Nat
  Delta : Int
  BestSessionLap : Lap
  LastLap : Lap
  CurrentLap : Lap
  deriving DecidableEq

structure BroadCastEvent where
  EventType : Nat -- the source field is named Type, a reserved word here
  Msg : GoStr
  TimeMs : Int
  CarId : Int
  deriving DecidableEq

/-- The Go zero value of Lap (fields never assigned keep it). -/
def zeroLap : Lap := ⟨0, 0, 0, [], 0, 0, 0, 0⟩

/-! ## Encoders (Marshal functions) -/

/-- MarshalConnectinReq: registration request
(type byte, protocol version, display name, connection password,
update interval, command password). -/
def MarshalConnectinReq (buffer : List Nat) (displayName : GoStr)
    (connectionPassword : GoStr) (msRealtimeUpdateInterval : Int)
    (commandPassword : GoStr) : List Nat × Bool :=
  let r1 := writeByteBuffer buffer RegisterCommandApplication
  let r2 := writeByteBuffer r1.1 BroadcastingProtocolVersion
  let r3 := writeString r2.1 displayName
  let r4 := writeString r3.1 connectionPassword
  let r5 := writeBufferI32 r4.1 msRealtimeUpdateInterval
  let r6 := writeString r5.1 commandPassword
  (r6.1, r1.2 && (r2.2 && (r3.2 && (r4.2 && (r5.2 && r6.2)))))

/-- MarshalEntryListReq: type byte then the connection id. -/
def MarshalEntryListReq (buffer : List Nat) (connectionId : Int) : List Nat × Bool :=
  let r1 := writeByteBuffer buffer RequestEntryList
  let r2 := writeBufferI32 r1.1 connectionId
  (r2.1, r1.2 && r2.2)

/-- MarshalTrackDataReq: type byte then the connection id. -/
def MarshalTrackDataReq (buffer : List Nat) (connectionId : Int) : List Nat × Bool :=
  let r1 := writeByteBuffer buffer RequestTrackData
  let r2 := writeBufferI32 r1.1 connectionId
  (r2.1, r1.2 && r2.2)

/-! ## Decoders (Unmarshal functions) -/

/-- UnmarshalConnectionResp: connection id, success flag, read-only flag,
error message.  Returns (connectionId, connectionSuccess, isReadOnly,
errMsg, ok, remaining buffer); none is the run-time abort of readString. -/
def UnmarshalConnectionResp (buffer : List Nat) :
    Option (Int × Int × Int × GoStr × Bool × List Nat) :=
  let r1 := rdI32 (true, buffer)
  let r2 := rdI8 r1.2
  let r3 := rdI8 r2.2
  match rdStr r3.2 with
  | none => none
  | some (errMsg, st4) => some (r1.1, r2.1, r3.1, errMsg, st4.1, st4.2)

/-- The entry-list element loop of UnmarshalEntryListRep: k uint16 reads.
Elements whose read fails or is skipped stay 0 (make preallocates the
slice with zero values). -/
def readU16List : Nat → RState → List Nat × RState
  | 0, st => ([], st)
  | k + 1, st =>
    let r := rdU16 st
    let rest := readU16List k r.2
    (r.1 :: rest.1, rest.2)

/-- UnmarshalEntryListRep: connection id, element count (uint16), then that
many car ids.  Returns (connectionId, entryList, ok, remaining buffer). -/
def UnmarshalEntryListRep (buffer : List Nat) : Int × EntryList × Bool × List Nat :=
  let r1 := rdI32 (true, buffer)
  let r2 := rdU16 r1.2
  let r3 := readU16List r2.1 r2.2
  (r1.1, r3.1, r3.2.1, r3.2.2)

/-- The driver loop of UnmarshalEntryListCarResp: three strings, a category
byte and a nationality uint16 per driver. -/
def readDrivers : Nat → RState → Option (List Driver × RState)
  | 0, st => some ([], st)
  | k + 1, st =>
    match rdStr st with
    | none => none
    | some (firstName, st1) =>
      match rdStr st1 with
      | none => none
      | some (lastName, st2) =>
        match rdStr st2 with
        | none => none
        | some (shortName, st3) =>
          let r4 := rdU8 st3
          let r5 := rdU16 r4.2
          match readDrivers k r5.2 with
          | none => none
          | some (ds, st6) =>
            some (⟨firstName, lastName, shortName, r4.1, r5.1⟩ :: ds, st6)

/-- UnmarshalEntryListCarResp: car id, model, team name, race number, cup
category, current driver id, nationality, then the driver list. -/
def UnmarshalEntryListCarResp (buffer : List Nat) :
    Option (EntryListCar × Bool × List Nat) :=
  let r1 := rdU16 (true, buffer)
  let r2 := rdU8 r1.2
  match rdStr r2.2 with
  | none => none
  | some (teamName, st3) =>
    let r4 := rdI32 st3
    let r5 := rdU8 r4.2
    let r6 := rdI8 r5.2
    let r7 := rdU16 r6.2
    let r8 := rdU8 r7.2
    match readDrivers r8.1 r8.2 with
    | none => none
    | some (drivers, st9) =>
      some (⟨r1.1, r2.1, teamName, r4.1, r5.1, r6.1, r7.1, drivers⟩, st9.1, st9.2)

/-- UnmarshalTrackDataResp: connection id, track name, track id, length in
meters.  The source overwrites ok with the result of readString instead of
chaining it (ok = readString(...), with no ok and), so the model applies
readString to the buffer left by the connection-id read and discards that
read's ok flag, exactly as the code does. -/
def UnmarshalTrackDataResp (buffer : List Nat) :
    Option (Int × TrackData × Bool × List Nat) :=
  let r1 := rdI32 (true, buffer)
  match readString r1.2.2 with
  | .runtimePanic => none
  | .failRead rest =>
    let r3 := rdI32 (false, rest)
    let r4 := rdI32 r3.2
    some (r1.1, ⟨[], r3.1, r4.1⟩, r4.2.1, r4.2.2)
  | .okRead s rest =>
    let r3 := rdI32 (true, rest)
    let r4 := rdI32 r3.2
    some (r1.1, ⟨s, r3.1, r4.1⟩, r4.2.1, r4.2.2)

/-- The split-time loop of unmarshalLap: k int32 reads, each compared with
InvalidSectorTime and normalized to 0 on a match.  Elements whose read
fails or is skipped stay 0. -/
def readSplits : Nat → RState → List Int × RState
  | 0, st => ([], st)
  | k + 1, st =>
    let r := rdI32 st
    let v := if r.1 = InvalidSectorTime then 0 else r.1
    let rest := readSplits k r.2
    (v :: rest.1, rest.2)

/-- unmarshalLap: lap time, car id, driver id, split count, splits
(sentinel-normalized), four flag bytes. -/
def unmarshalLap (buffer : List Nat) : Lap × RState :=
  let r1 := rdI32 (true, buffer)
  let r2 := rdU16 r1.2
  let r3 := rdU16 r2.2
  let r4 := rdU8 r3.2
  let r5 := readSplits r4.1 r4.2
  let r6 := rdU8 r5.2
  let r7 := rdU8 r6.2
  let r8 := rdU8 r7.2
  let r9 := rdU8 r8.2
  (⟨r1.1, r2.1, r3.1, r5.1, r6.1, r7.1, r8.1, r9.1⟩, r9.2)

/-- The pattern if ok then lap, ok = unmarshalLap(buffer) used by the two
big decoders: when ok is already false the lap keeps its zero value. -/
def readLapIfOk (st : RState) : Lap × RState :=
  if st.1 then unmarshalLap st.2 else (zeroLap, st)

/-- unmarshalRealTimeUpdate: the session-scoped update.  When the replay
flag is set two extra int32 values are read and discarded, as in the
source. -/
def unmarshalRealTimeUpdate (buffer : List Nat) :
    Option (RealTimeUpdate × Bool × List Nat) :=
  let r1 := rdU16 (true, buffer)
  let r2 := rdU16 r1.2
  let r3 := rdU8 r2.2
  let r4 := rdU8 r3.2
  let r5 := rdF32 r4.2
  let r6 := rdF32 r5.2
  let r7 := rdI32 r6.2
  match rdStr r7.2 with
  | none => none
  | some (activeCameraSet, st8) =>
    match rdStr st8 with
    | none => none
    | some (activeCamera, st9) =>
      match rdStr st9 with
      | none => none
      | some (currentHUDPage, st10) =>
        let r11 := rdU8 st10
        let st12 :=
          if 0 < r11.1 then
            let ra := rdI32 r11.2
            let rb := rdI32 ra.2
            rb.2
          else r11.2
        let r13 := rdF32 st12
        let r14 := rdI8 r13.2
        let r15 := rdI8 r14.2
        let r16 := rdU8 r15.2
        let r17 := rdU8 r16.2
        let r18 := rdU8 r17.2
        let r19 := readLapIfOk r18.2
        some (⟨r1.1, r2.1, r3.1, r4.1, r5.1, r6.1, r7.1, activeCameraSet,
               activeCamera, currentHUDPage, r11.1, r13.1, r14.1, r15.1,
               r16.1, r17.1, r18.1, r19.1⟩, r19.2.1, r19.2.2)

/-- UnmarshalCarUpdateResp: the per-car update, ending in three laps.
Contains no strings, so it cannot abort at run time. -/
def UnmarshalCarUpdateResp (buffer : List Nat) :
    RealTimeCarUpdate × Bool × List Nat :=
  let r1 := rdU16 (true, buffer)
  let r2 := rdU16 r1.2
  let r3 := rdU8 r2.2
  let r4 := rdI8 r3.2
  let r5 := rdF32 r4.2
  let r6 := rdF32 r5.2
  let r7 := rdF32 r6.2
  let r8 := rdU8 r7.2
  let r9 := rdU16 r8.2
  let r10 := rdU16 r9.2
  let r11 := rdU16 r10.2
  let r12 := rdU16 r11.2
  let r13 := rdF32 r12.2
  let r14 := rdU16 r13.2
  let r15 := rdI32 r14.2
  let rBest := readLapIfOk r15.2
  let rLast := readLapIfOk rBest.2
  let rCur := readLapIfOk rLast.2
  (⟨r1.1, r2.1, r3.1, r4.1, r5.1, r6.1, r7.1, r8.1, r9.1, r10.1, r11.1,
    r12.1, r13.1, r14.1, r15.1, rBest.1, rLast.1, rCur.1⟩, rCur.2.1, rCur.2.2)

/-- unmarshalBroadCastEvent: event type, message, time, car id. -/
def unmarshalBroadCastEvent (buffer : List Nat) :
    Option (BroadCastEvent × Bool × List Nat) :=
  let r1 := rdU8 (true, buffer)
  match rdStr r1.2 with
  | none => none
  | some (msg, st2) =>
    let r3 := rdI32 st2
    let r4 := rdI32 r3.2
    some (⟨r1.1, msg, r3.1, r4.1⟩, r4.2.1, r4.2.2)

/-! ## The client (ConnectAndRun message handling and the entry-list cache) -/

/-- One registered-handler flag per callback (OnX != nil in the source),
the entry-list cache, the refresh rate-limit timestamp and the connection
id captured at registration.  Times are in nanoseconds (Go time.Duration). -/
structure Client where
  hasOnRealTimeUpdate : Bool
  hasOnRealTimeCarUpdate : Bool
  hasOnBroadCastEvent : Bool
  hasOnEntryList : Bool
  hasOnEntryListCar : Bool
  hasOnTrackData : Bool
  entryList : Option EntryList
  lastEntryListRequest : Int
  globalConnectionId : Int
  deriving DecidableEq

/-- Observable actions of one loop iteration: a handler invocation or a
frame written to the socket. -/
inductive Event where
  | onRealTimeUpdate : RealTimeUpdate → Event
  | onRealTimeCarUpdate : RealTimeCarUpdate → Event
  | onBroadCastEvent : BroadCastEvent → Event
  | onEntryList : EntryList → Event
  | onEntryListCar : EntryListCar → Event
  | onTrackData : TrackData → Event
  | sentFrame : List Nat → Event
  deriving DecidableEq

/-- Outcome of one read-loop iteration: the fatal buffer-capacity path
(Logger.Panic), a jump back to StartConnectionLoop, a run-time abort
inside a decoder, or the next state with the emitted events. -/
inductive StepOutcome where
  | fatal : StepOutcome
  | restart : StepOutcome
  | runtimeError : StepOutcome
  | next : Client → List Event → StepOutcome
  deriving DecidableEq

/-- One nanosecond second (time.Second). -/
def timeSecond : Int := 1000000000

/-- sendReqEntryList: rate-limited entry-list refresh request.  Returns
false without sending when less than one second has elapsed since
lastEntryListRequest; otherwise updates the timestamp, marshals the
request and writes it.  Result: (new client, error flag, emitted events). -/
def sendReqEntryList (client : Client) (now : Int) (connectionId : Int) :
    Client × Bool × List Event :=
  if now - client.lastEntryListRequest < timeSecond then (client, false, [])
  else
    let client1 := { client with lastEntryListRequest := now }
    let r := MarshalEntryListReq [] connectionId
    if r.2 then (client1, false, [.sentFrame r.1])
    else (client1, true, [])

/-- The switch on the message type byte in ConnectAndRun, applied to the
payload after the type byte. -/
def handleMsg (client : Client) (now : Int) (msgType : Nat) (payload : List Nat) :
    StepOutcome :=
  if msgType = RegistrationResultMsgType then
    match UnmarshalConnectionResp payload with
    | none => .runtimeError
    | some (connectionId, _, _, _, _, _) =>
      let client1 := { client with globalConnectionId := connectionId }
      let r := sendReqEntryList client1 now connectionId
      if r.2.1 then .restart
      else
        let tdReq := MarshalTrackDataReq [] connectionId
        .next r.1 (r.2.2 ++ [.sentFrame tdReq.1])
  else if msgType = RealtimeUpdateMsgType then
    if client.hasOnRealTimeUpdate then
      match unmarshalRealTimeUpdate payload with
      | none => .runtimeError
      | some (realTimeUpdate, _, _) => .next client [.onRealTimeUpdate realTimeUpdate]
    else .next client []
  else if msgType = RealtimeCarUpdateMsgType then
    match client.entryList with
    | none => .next client []
    | some entryList =>
      if client.hasOnRealTimeCarUpdate then
        let r := UnmarshalCarUpdateResp payload
        if entryList.contains r.1.Id then .next client [.onRealTimeCarUpdate r.1]
        else
          let client1 := { client with entryList := none }
          let r2 := sendReqEntryList client1 now client.globalConnectionId
          .next r2.1 r2.2.2
      else .next client []
  else if msgType = EntryListMsgType then
    if client.hasOnEntryList then
      let r := UnmarshalEntryListRep payload
      .next { client with entryList := some r.2.1 } [.onEntryList r.2.1]
    else .next client []
  else if msgType = EntryListCarMsgType then
    if client.hasOnEntryListCar then
      match UnmarshalEntryListCarResp payload with
      | none => .runtimeError
      | some (car, _, _) => .next client [.onEntryListCar car]
    else .next client []
  else if msgType = TrackDataMsgType then
    if client.hasOnTrackData then
      match UnmarshalTrackDataResp payload with
      | none => .runtimeError
      | some (_, trackData, _, _) => .next client [.onTrackData trackData]
    else .next client []
  else if msgType = BroadcastingEventMsgType then
    if client.hasOnBroadCastEvent then
      match unmarshalBroadCastEvent payload with
      | none => .runtimeError
      | some (broadCastEvent, _, _) => .next client [.onBroadCastEvent broadCastEvent]
    else .next client []
  else .next client []

/-- Reading one datagram of the read loop: the UDP read delivers at most
ReadBufferSize bytes into the fixed array; an empty datagram has no type
byte and restarts the connection. -/
def handleDatagram (client : Client) (now : Int) (data : List Nat) : StepOutcome :=
  match data with
  | [] => .restart
  | msgType :: payload => handleMsg client now msgType payload

/-- One iteration of the read loop of ConnectAndRun on a received datagram:
the read fills at most ReadBufferSize bytes (UDP truncation); a read that
fills the whole buffer takes the fatal Logger.Panic path before any
parsing. -/
def connectAndRunStep (client : Client) (now : Int) (datagram : List Nat) :
    StepOutcome :=
  let n := min datagram.length ReadBufferSize
  if n = ReadBufferSize then .fatal
  else handleDatagram client now (datagram.take n)

/-- Result of running the read loop over a list of timed datagrams. -/
inductive RunResult where
  | finished : Client → List Event → RunResult
  | fatalStop : List Event → RunResult
  | restartStop : List Event → RunResult
  | runtimeStop : List Event → RunResult
  deriving DecidableEq

/-- Run the read loop over a list of (arrival time, datagram) pairs,
accumulating the emitted events. -/
def runSteps (client : Client) (acc : List Event) :
    List (Int × List Nat) → RunResult
  | [] => .finished client acc
  | (now, datagram) :: rest =>
    match connectAndRunStep client now datagram with
    | .fatal => .fatalStop acc
    | .restart => .restartStop acc
    | .runtimeError => .runtimeStop acc
    | .next client1 evs => runSteps client1 (acc ++ evs) rest

/-! ## Concrete fixtures used by the closed theorems -/

/-- A client with every handler registered, no entry list cached yet and
the zero time as last refresh request (the Go zero values). -/
def clientAll : Client :=
  ⟨true, true, true, true, true, true, none, 0, 0⟩

/-- The same client without an OnEntryList handler. -/
def clientNoEntryListHandler : Client :=
  { clientAll with hasOnEntryList := false }

/-- An entry-list datagram: type byte 4, connection id 0, count 1, id 0. -/
def entryListDatagram : List Nat := [4, 0, 0, 0, 0, 1, 0, 0, 0]

/-- A fully valid all-zero car-update datagram for car id 0: type byte 3
followed by the 76-byte fixed layout with zero split counts. -/
def carUpdateDatagram : List Nat := 3 :: List.replicate 76 0

/-- The car update decoded from carUpdateDatagram. -/
def carUpdateZero : RealTimeCarUpdate :=
  ⟨0, 0, 0, 0, 0, 0, 0, 0, 0, 0, 0, 0, 0, 0, 0, zeroLap, zeroLap, zeroLap⟩

/-- The real-time update decoded from an empty payload (every read fails,
all fields keep their zero values). -/
def realTimeUpdateZero : RealTimeUpdate :=
  ⟨0, 0, 0, 0, 0, 0, 0, [], [], [], 0, 0, 0, 0, 0, 0, 0, zeroLap⟩

/-- The entry-list car decoded from an empty payload. -/
def entryListCarZero : EntryListCar := ⟨0, 0, [], 0, 0, 0, 0, []⟩

/-- A lap payload whose single split is the invalid-sector sentinel
(bytes 255 255 255 127, little-endian 2147483647). -/
def lapSentinelBuf : List Nat :=
  [1, 0, 0, 0, 2, 0, 3, 0, 1, 255, 255, 255, 127, 1, 1, 1, 1]

/-- The lap decoded from lapSentinelBuf: the sentinel split became 0. -/
def lapSentinel : Lap := ⟨1, 2, 3, [0], 1, 1, 1, 1⟩

/-- A car-update payload (all-zero fixed fields) whose best-session lap
carries one sentinel split, followed by two split-free laps. -/
def carUpdateSentinelBuf : List Nat :=
  List.replicate 37 0 ++
    ([0, 0, 0, 0, 0, 0, 0, 0, 1, 255, 255, 255, 127, 0, 0, 0, 0] ++
     List.replicate 26 0)

/-- A real-time-update payload (zero fields, empty strings) whose
best-session lap carries one sentinel split. -/
def realTimeUpdateSentinelBuf : List Nat :=
  List.replicate 34 0 ++
    [0, 0, 0, 0, 0, 0, 0, 0, 1, 255, 255, 255, 127, 0, 0, 0, 0]

/-- The real-time update decoded from realTimeUpdateSentinelBuf. -/
def realTimeUpdateSentinel : RealTimeUpdate :=
  { realTimeUpdateZero with BestSessionLap := ⟨0, 0, 0, [0], 0, 0, 0, 0⟩ }

/-! ## Spec-side well-formedness of inbound payloads

The spec states the decode contract: a strict sequential read of the
fields in protocol order, aborted with ok=false by the first field that
cannot be read.  The following Bool-valued predicates spell out, per
inbound message and following the wire layout, that every field in that
order is present in the buffer.  They are the spec-side counterparts
compared with the source decoders in the characterization theorem below
(ok=true exactly on well-formed payloads, hence ok=false whenever any
field in protocol order cannot be read). -/

/-- The split count of a lap payload: the byte at offset 8 (0 when the
buffer ends before it, like the Go zero value of the skipped read). -/
def lapCnt (b : List Nat) : Nat := leVal ((b.drop 8).take 1)

/-- All lap fields present: 8 fixed bytes, the count byte, 4 bytes per
split and the 4 flag bytes. -/
def wfLap (b : List Nat) : Bool := decide (13 + 4 * lapCnt b ≤ b.length)

/-- The bytes remaining after a lap is consumed. -/
def lapSkip (b : List Nat) : List Nat := b.drop (13 + 4 * lapCnt b)

/-- Registration result: 6 fixed bytes then the error-message string. -/
def wfConnResp (buf : List Nat) : Bool :=
  match readString (buf.drop 6) with
  | .okRead _ _ => true
  | _ => false

/-- Track data: the name string is read from the buffer left after the 4
connection-id bytes (the source never consults the connection-id read
for the final ok), then track id and meters need 8 bytes. -/
def wfTrackData (buf : List Nat) : Bool :=
  match readString (buf.drop 4) with
  | .okRead _ r => decide (8 ≤ r.length)
  | _ => false

/-- Broadcast event: the type byte, the message string, then 8 bytes for
time and car id. -/
def wfBroadCastEvent (buf : List Nat) : Bool :=
  match readString (buf.drop 1) with
  | .okRead _ r => decide (8 ≤ r.length)
  | _ => false

/-- Entry list: 6 fixed bytes then two bytes per listed id, the count
being the uint16 at offset 4. -/
def wfEntryListRep (buf : List Nat) : Bool :=
  decide (6 ≤ buf.length) &&
    decide (2 * leVal ((buf.drop 4).take 2) ≤ (buf.drop 6).length)

/-- Driver list: three strings and 3 fixed bytes per driver. -/
def wfDrivers : Nat → List Nat → Bool
  | 0, _ => true
  | k + 1, b =>
    match readString b with
    | .okRead _ r1 =>
      match readString r1 with
      | .okRead _ r2 =>
        match readString r2 with
        | .okRead _ r3 => decide (3 ≤ r3.length) && wfDrivers k (r3.drop 3)
        | _ => false
      | _ => false
    | _ => false

/-- Entry-list car: 3 fixed bytes, the team string, 9 fixed bytes (the
last being the driver count), then the drivers. -/
def wfEntryListCar (buf : List Nat) : Bool :=
  match readString (buf.drop 3) with
  | .okRead _ r =>
    decide (9 ≤ r.length) && wfDrivers (leVal ((r.drop 8).take 1)) (r.drop 9)
  | _ => false

/-- Real-time update: 18 fixed bytes, three strings, the replay flag
byte, two extra int32 values when the flag is set, 9 more fixed bytes,
then the best-session lap. -/
def wfRealTimeUpdate (buf : List Nat) : Bool :=
  match readString (buf.drop 18) with
  | .okRead _ r1 =>
    match readString r1 with
    | .okRead _ r2 =>
      match readString r2 with
      | .okRead _ r3 =>
        match r3 with
        | [] => false
        | flag :: r4 =>
          if 0 < flag then decide (17 ≤ r4.length) && wfLap (r4.drop 17)
          else decide (9 ≤ r4.length) && wfLap (r4.drop 9)
      | _ => false
    | _ => false
  | _ => false

/-- Car update: 37 fixed bytes then three laps in sequence. -/
def wfCarUpdate (buf : List Nat) : Bool :=
  decide (37 ≤ buf.length) &&
    (wfLap (buf.drop 37) &&
      (wfLap (lapSkip (buf.drop 37)) && wfLap (lapSkip (lapSkip (buf.drop 37)))))

/-! ## Basic lemmas about the byte-level primitives -/

theorem leBytes_length (w v : Nat) : (leBytes w v).length = w := by
  induction w generalizing v with
  | zero => rfl
  | succ k ih => simp [leBytes, ih]

theorem leVal_leBytes (w v : Nat) : leVal (leBytes w v) = v % 2 ^ (8 * w) := by
  induction w generalizing v with
  | zero => simp [leBytes, leVal, Nat.mod_one]
  | succ k ih =>
    have hpow : 2 ^ (8 * (k + 1)) = 256 * 2 ^ (8 * k) := by
      rw [Nat.mul_succ, Nat.pow_add]; ring
    rw [leBytes, leVal, ih, hpow, Nat.mod_mul]

theorem rdRaw_true (w : Nat) (buf : List Nat) :
    rdRaw w (true, buf) =
      if w ≤ buf.length then (buf.take w, (true, buf.drop w))
      else ([], (false, [])) := rfl

theorem rdRaw_false (w : Nat) (buf : List Nat) :
    rdRaw w (false, buf) = ([], (false, buf)) := rfl

theorem rdRaw_exact (w : Nat) (l r : List Nat) (h : l.length = w) :
    rdRaw w (true, l ++ r) = (l, (true, r)) := by
  subst h
  rw [rdRaw_true, if_pos (by simp), List.take_left, List.drop_left]

theorem rdRaw_snd_true (w : Nat) (buf : List Nat) :
    (rdRaw w (true, buf)).2.2 = buf.drop w := by
  rw [rdRaw_true]
  split
  · rfl
  · exact (List.drop_eq_nil_of_le (by omega)).symm

theorem sint_of_lt (w v : Nat) (h : v < 2 ^ (w - 1)) : sint w v = v := by
  simp [sint, h]

theorem sint32_twos (v : Int) (h1 : -(2 ^ 31) ≤ v) (h2 : v < 2 ^ 31) :
    sint 32 ((v % 2 ^ 32).toNat) = v := by
  have hnn : (0 : Int) ≤ v % 2 ^ 32 := Int.emod_nonneg v (by norm_num)
  have hub : v % 2 ^ 32 < 2 ^ 32 := Int.emod_lt_of_pos v (by norm_num)
  have hcase : v % 2 ^ 32 = v ∨ v % 2 ^ 32 = v + 2 ^ 32 := by
    norm_num at h1 h2 ⊢
    omega
  simp only [sint, show (32 : Nat) - 1 = 31 from rfl]
  have hp31 : (2 : Nat) ^ 31 = 2147483648 := by norm_num
  have hp32 : (2 : Int) ^ 32 = 4294967296 := by norm_num
  rw [hp31, hp32]
  norm_num at h1 h2 hnn hub hcase
  split <;> omega

theorem rdU8_cons (b : Nat) (l : List Nat) : rdU8 (true, b :: l) = (b, (true, l)) := by
  simp [rdU8, rdRaw, leVal]

theorem rdI32_write (v : Int) (rest : List Nat)
    (h1 : -(2 ^ 31) ≤ v) (h2 : v < 2 ^ 31) :
    rdI32 (true, (writeBufferI32 [] v).1 ++ rest) = (v, (true, rest)) := by
  have hlen : (leBytes 4 (v % (2 : Int) ^ 32).toNat).length = 4 := leBytes_length 4 _
  have hub : (v % (2 : Int) ^ 32).toNat < 2 ^ (8 * 4) := by
    have ha := Int.emod_lt_of_pos v (show (0 : Int) < 2 ^ 32 by norm_num)
    have hb := Int.emod_nonneg v (show ((2 : Int) ^ 32) ≠ 0 by norm_num)
    norm_num at ha hb ⊢
    omega
  have hval : leVal (leBytes 4 (v % (2 : Int) ^ 32).toNat) = (v % (2 : Int) ^ 32).toNat := by
    rw [leVal_leBytes]
    exact Nat.mod_eq_of_lt hub
  simp only [writeBufferI32, List.nil_append, rdI32, rdRaw_exact 4 _ rest hlen, hval]
  rw [sint32_twos v h1 h2]

theorem rdU16_write (v : Nat) (rest : List Nat) (h : v < 2 ^ 16) :
    rdU16 (true, (writeBufferU16 [] v).1 ++ rest) = (v, (true, rest)) := by
  have hlen : (leBytes 2 v).length = 2 := leBytes_length 2 v
  have hval : leVal (leBytes 2 v) = v := by
    rw [leVal_leBytes]
    exact Nat.mod_eq_of_lt (by norm_num at h ⊢; omega)
  simp only [writeBufferU16, List.nil_append, rdU16, rdRaw_exact 2 _ rest hlen, hval]

theorem readString_writeString (s rest : List Nat) (h : s.length < 2 ^ 15) :
    readString ((writeString [] s).1 ++ rest) = .okRead s rest := by
  have hlen2 : (leBytes 2 s.length).length = 2 := leBytes_length 2 _
  have hval : leVal (leBytes 2 s.length) = s.length := by
    rw [leVal_leBytes]
    exact Nat.mod_eq_of_lt (by norm_num at h ⊢; omega)
  have htake : (leBytes 2 s.length ++ (s ++ rest)).take 2 = leBytes 2 s.length :=
    List.take_left' hlen2
  have hdrop : (leBytes 2 s.length ++ (s ++ rest)).drop 2 = s ++ rest :=
    List.drop_left' hlen2
  simp only [writeString, List.nil_append, List.append_assoc, readString,
    htake, hdrop, hval]
  rw [if_pos (by simp [hlen2]), if_neg (by rw [sint_of_lt 16 s.length (by norm_num at h ⊢; omega)]; omega),
    if_pos (by simp), List.take_left, List.drop_left]

/-! ## Claim theorems -/

/-- C9: there is an input on which string decoding aborts the process
instead of returning ok=false: readString reads a signed 16-bit length and
allocates a slice of that length without a negativity check, so any
message whose 2-byte string length field has the high bit of the second
byte set (a negative int16) reaches the run-time abort; in particular the
broadcast-event decoder aborts on such a datagram payload. -/
theorem C9_negative_string_length_aborts (b0 b1 : Nat) (rest : List Nat)
    (h0 : b0 < 256) (h1 : 128 ≤ b1) (h2 : b1 < 256) :
    readString (b0 :: b1 :: rest) = .runtimePanic ∧
    unmarshalBroadCastEvent (0 :: b0 :: b1 :: rest) = none := by
  have hval : leVal ((b0 :: b1 :: rest).take 2) = b0 + 256 * b1 := by
    simp [leVal]
  have hneg : sint 16 (b0 + 256 * b1) < 0 := by
    simp only [sint, show (16 : Nat) - 1 = 15 from rfl]
    rw [if_neg (by omega)]
    have hcast : ((b0 + 256 * b1 : Nat) : Int) < 2 ^ 16 := by
      push_cast
      omega
    omega
  have hrs : readString (b0 :: b1 :: rest) = .runtimePanic := by
    simp only [readString, hval]
    rw [if_pos (by simp), if_pos hneg]
  refine ⟨hrs, ?_⟩
  simp [unmarshalBroadCastEvent, rdU8, rdRaw, leVal, rdStr, hrs]

/-- Witness for C9 at the concrete input [0, 128] (length header -32768). -/
theorem C9_witness :
    readString [0, 128] = .runtimePanic ∧
    unmarshalBroadCastEvent [0, 0, 128] = none :=
  ⟨(C9_negative_string_length_aborts 0 128 [] (by norm_num) (by norm_num) (by norm_num)).1,
   (C9_negative_string_length_aborts 0 128 [] (by norm_num) (by norm_num) (by norm_num)).2⟩

/-- C10: writeString on a string of length at least 2 to the 15 writes a
length header equal to the bit pattern of int16(len s), i.e. len s mod
2 to the 16 in two little-endian bytes, still appends all the raw bytes
of s, and reports ok=true; decoding the encoding never returns the
original string for such inputs. -/
theorem C10_writeString_truncates (s : GoStr) (h : 2 ^ 15 ≤ s.length) :
    (writeString [] s).1 = leBytes 2 s.length ++ s ∧
    (writeString [] s).2 = true ∧
    leVal (leBytes 2 s.length) = s.length % 2 ^ 16 ∧
    ∀ rest r, readString ((writeString [] s).1 ++ rest) ≠ .okRead s r := by
  refine ⟨by simp [writeString], rfl, by rw [leVal_leBytes], ?_⟩
  intro rest r hcontra
  have hlen2 : (leBytes 2 s.length).length = 2 := leBytes_length 2 _
  have hval : leVal (leBytes 2 s.length) = s.length % 2 ^ 16 := by rw [leVal_leBytes]
  have htake : (leBytes 2 s.length ++ (s ++ rest)).take 2 = leBytes 2 s.length :=
    List.take_left' hlen2
  have hdrop : (leBytes 2 s.length ++ (s ++ rest)).drop 2 = s ++ rest :=
    List.drop_left' hlen2
  simp only [writeString, List.nil_append, List.append_assoc, readString,
    htake, hdrop, hval] at hcontra
  rw [if_pos (by simp [hlen2])] at hcontra
  by_cases hneg : sint 16 (s.length % 2 ^ 16) < 0
  · rw [if_pos hneg] at hcontra
    exact StrRead.noConfusion hcontra
  · rw [if_neg hneg] at hcontra
    have hmlt : s.length % 2 ^ 16 < 2 ^ 16 := Nat.mod_lt _ (by norm_num)
    have hlt : s.length % 2 ^ 16 < 2 ^ 15 := by
      by_contra hge
      apply hneg
      simp only [sint, show (16 : Nat) - 1 = 15 from rfl]
      rw [if_neg (by omega)]
      have hcast : ((s.length % 2 ^ 16 : Nat) : Int) < 2 ^ 16 := by
        exact_mod_cast hmlt
      omega
    have hfit : s.length % 2 ^ 16 ≤ (s ++ rest).length := by
      simp only [List.length_append]
      omega
    rw [if_pos hfit] at hcontra
    have hs : ((s ++ rest).take (s.length % 2 ^ 16)) = s := by
      injection hcontra with hA hB
    have := congrArg List.length hs
    simp only [List.length_take, List.length_append] at this
    omega

/-- Witness for C10 at a string of length exactly 2 to the 15. -/
theorem C10_witness :
    2 ^ 15 ≤ (List.replicate 32768 (0 : Nat)).length ∧
    readString ((writeString [] (List.replicate 32768 (0 : Nat))).1 ++ []) ≠
      .okRead (List.replicate 32768 (0 : Nat)) [] :=
  ⟨by rw [List.length_replicate]; norm_num,
   (C10_writeString_truncates _ (by rw [List.length_replicate]; norm_num)).2.2.2 [] []⟩

/-- C3: decoding the bytes produced by encoding recovers the value, for
every encoder/decoder pair of the codec on valid field values (strings
shorter than 2 to the 15, integers in int32 range), including empty
strings; and each outbound message encoder reports ok=true and lays out
its fields in protocol order, so that the field-level reads in that order
recover the encoded request. -/
theorem C3_encode_decode_roundtrip :
    (∀ s rest : List Nat, s.length < 2 ^ 15 →
      (writeString [] s).2 = true ∧
      readString ((writeString [] s).1 ++ rest) = .okRead s rest) ∧
    (∀ (v : Int) (rest : List Nat), -(2 ^ 31) ≤ v → v < 2 ^ 31 →
      (writeBufferI32 [] v).2 = true ∧
      rdI32 (true, (writeBufferI32 [] v).1 ++ rest) = (v, (true, rest))) ∧
    (∀ (v : Nat) (rest : List Nat), v < 2 ^ 16 →
      (writeBufferU16 [] v).2 = true ∧
      rdU16 (true, (writeBufferU16 [] v).1 ++ rest) = (v, (true, rest))) ∧
    (∀ (b : Nat) (rest : List Nat),
      (writeByteBuffer [] b).2 = true ∧
      rdU8 (true, (writeByteBuffer [] b).1 ++ rest) = (b, (true, rest))) ∧
    (∀ (dn cp cmdp : GoStr) (iv : Int),
      (MarshalConnectinReq [] dn cp iv cmdp).2 = true ∧
      (MarshalConnectinReq [] dn cp iv cmdp).1 =
        RegisterCommandApplication :: BroadcastingProtocolVersion ::
          ((writeString [] dn).1 ++ (writeString [] cp).1 ++
           (writeBufferI32 [] iv).1 ++ (writeString [] cmdp).1)) ∧
    (∀ cid : Int,
      (MarshalEntryListReq [] cid).2 = true ∧
      (MarshalEntryListReq [] cid).1 =
        RequestEntryList :: (writeBufferI32 [] cid).1) ∧
    (∀ cid : Int,
      (MarshalTrackDataReq [] cid).2 = true ∧
      (MarshalTrackDataReq [] cid).1 =
        RequestTrackData :: (writeBufferI32 [] cid).1) := by
  refine ⟨?_, ?_, ?_, ?_, ?_, ?_, ?_⟩
  · intro s rest h
    exact ⟨rfl, readString_writeString s rest h⟩
  · intro v rest h1 h2
    exact ⟨rfl, rdI32_write v rest h1 h2⟩
  · intro v rest h
    exact ⟨rfl, rdU16_write v rest h⟩
  · intro b rest
    refine ⟨rfl, ?_⟩
    simp only [writeByteBuffer, List.nil_append, List.cons_append, List.nil_append]
    exact rdU8_cons b rest
  · intro dn cp cmdp iv
    constructor
    · rfl
    · simp [MarshalConnectinReq, writeByteBuffer, writeString, writeBufferI32]
  · intro cid
    exact ⟨rfl, by simp [MarshalEntryListReq, writeByteBuffer, writeBufferI32]⟩
  · intro cid
    exact ⟨rfl, by simp [MarshalTrackDataReq, writeByteBuffer, writeBufferI32]⟩

/-- Witness for C3 at concrete values, empty string included. -/
theorem C3_witness :
    readString ((writeString [] [104, 105]).1 ++ [7]) = .okRead [104, 105] [7] ∧
    readString ((writeString [] []).1 ++ []) = .okRead [] [] ∧
    rdI32 (true, (writeBufferI32 [] (-5)).1 ++ []) = (-5, (true, [])) ∧
    rdU16 (true, (writeBufferU16 [] 300).1 ++ [1]) = (300, (true, [1])) ∧
    rdU8 (true, (writeByteBuffer [] 7).1 ++ []) = (7, (true, [])) ∧
    (MarshalConnectinReq [] [65] [] 250 [66]).1 =
      RegisterCommandApplication :: BroadcastingProtocolVersion ::
        ((writeString [] [65]).1 ++ (writeString [] []).1 ++
         (writeBufferI32 [] 250).1 ++ (writeString [] [66]).1) ∧
    (MarshalEntryListReq [] 3).1 = RequestEntryList :: (writeBufferI32 [] 3).1 ∧
    (MarshalTrackDataReq [] 3).1 = RequestTrackData :: (writeBufferI32 [] 3).1 :=
  ⟨(C3_encode_decode_roundtrip.1 [104, 105] [7] (by norm_num)).2,
   (C3_encode_decode_roundtrip.1 [] [] (by norm_num)).2,
   (C3_encode_decode_roundtrip.2.1 (-5) [] (by norm_num) (by norm_num)).2,
   (C3_encode_decode_roundtrip.2.2.1 300 [1] (by norm_num)).2,
   (C3_encode_decode_roundtrip.2.2.2.1 7 []).2,
   (C3_encode_decode_roundtrip.2.2.2.2.1 [65] [] [66] 250).2,
   (C3_encode_decode_roundtrip.2.2.2.2.2.1 3).2,
   (C3_encode_decode_roundtrip.2.2.2.2.2.2 3).2⟩

theorem readSplits_no_sentinel (k : Nat) :
    ∀ (st : RState) (v : Int), v ∈ (readSplits k st).1 → v ≠ InvalidSectorTime := by
  induction k with
  | zero =>
    intro st v h
    simp [readSplits] at h
  | succ n ih =>
    intro st v h
    simp only [readSplits, List.mem_cons] at h
    rcases h with h1 | h2
    · subst h1
      by_cases hs : (rdI32 st).1 = InvalidSectorTime
      · rw [if_pos hs]
        decide
      · rw [if_neg hs]
        exact hs
    · exact ih _ _ h2

theorem unmarshalLap_no_sentinel (buffer : List Nat) (v : Int)
    (h : v ∈ (unmarshalLap buffer).1.Splits) : v ≠ InvalidSectorTime :=
  readSplits_no_sentinel _ _ _ h

theorem readLapIfOk_no_sentinel (st : RState) (v : Int)
    (h : v ∈ (readLapIfOk st).1.Splits) : v ≠ InvalidSectorTime := by
  by_cases hok : st.1
  · unfold readLapIfOk at h
    rw [if_pos hok] at h
    exact unmarshalLap_no_sentinel _ _ h
  · unfold readLapIfOk at h
    rw [if_neg hok] at h
    simp [zeroLap] at h

set_option maxHeartbeats 2000000 in
/-- C4: every lap decoded by the codec has its splits normalized: a split
read as the reserved invalid-sector sentinel becomes 0, and no decoded
lap (standalone, inside a car update, or inside a real-time update)
contains a split equal to the sentinel. -/
theorem C4_invalid_sector_normalized :
    (∀ (buffer : List Nat) (v : Int),
      v ∈ (unmarshalLap buffer).1.Splits → v ≠ InvalidSectorTime) ∧
    (∀ (buffer : List Nat) (v : Int),
      (v ∈ (UnmarshalCarUpdateResp buffer).1.BestSessionLap.Splits ∨
       v ∈ (UnmarshalCarUpdateResp buffer).1.LastLap.Splits ∨
       v ∈ (UnmarshalCarUpdateResp buffer).1.CurrentLap.Splits) →
      v ≠ InvalidSectorTime) ∧
    (∀ (buffer : List Nat) (u : RealTimeUpdate) (ok2 : Bool) (rest : List Nat),
      unmarshalRealTimeUpdate buffer = some (u, ok2, rest) →
      ∀ v ∈ u.BestSessionLap.Splits, v ≠ InvalidSectorTime) ∧
    (∀ (k : Nat) (buf : List Nat),
      (readSplits (k + 1) (true, [255, 255, 255, 127] ++ buf)).1.head? = some 0) := by
  refine ⟨?_, ?_, ?_, ?_⟩
  · intro buffer v h
    exact unmarshalLap_no_sentinel buffer v h
  · intro buffer v h
    rcases h with h | h | h
    · exact readLapIfOk_no_sentinel _ _ h
    · exact readLapIfOk_no_sentinel _ _ h
    · exact readLapIfOk_no_sentinel _ _ h
  · intro buffer u ok2 rest hdec v h
    simp only [unmarshalRealTimeUpdate] at hdec
    split at hdec
    · exact Option.noConfusion hdec
    · split at hdec
      · exact Option.noConfusion hdec
      · split at hdec
        · exact Option.noConfusion hdec
        · simp only [Option.some.injEq, Prod.mk.injEq] at hdec
          obtain ⟨hu, -⟩ := hdec
          subst hu
          exact readLapIfOk_no_sentinel _ _ h
  · intro k buf
    have hr : rdRaw 4 (true, ([255, 255, 255, 127] : List Nat) ++ buf) =
        ([255, 255, 255, 127], (true, buf)) := rdRaw_exact 4 _ buf (by rfl)
    simp only [readSplits, rdI32, hr]
    rw [if_pos (by decide : sint 32 (leVal [255, 255, 255, 127]) = InvalidSectorTime)]
    rfl

/-- Witness for C4 at concrete sentinel-carrying payloads. -/
theorem C4_witness :
    ((0 : Int) ∈ (unmarshalLap lapSentinelBuf).1.Splits ∧
      (0 : Int) ≠ InvalidSectorTime) ∧
    ((0 : Int) ∈ (UnmarshalCarUpdateResp carUpdateSentinelBuf).1.BestSessionLap.Splits ∧
      (0 : Int) ≠ InvalidSectorTime) ∧
    (unmarshalRealTimeUpdate realTimeUpdateSentinelBuf =
        some (realTimeUpdateSentinel, true, []) ∧
      (0 : Int) ∈ realTimeUpdateSentinel.BestSessionLap.Splits ∧
      (0 : Int) ≠ InvalidSectorTime) ∧
    (readSplits (0 + 1) (true, [255, 255, 255, 127] ++ [])).1.head? = some 0 :=
  ⟨⟨by decide, C4_invalid_sector_normalized.1 lapSentinelBuf 0 (by decide)⟩,
   ⟨by decide, C4_invalid_sector_normalized.2.1 carUpdateSentinelBuf 0 (Or.inl (by decide))⟩,
   ⟨by decide, by decide,
    C4_invalid_sector_normalized.2.2.1 realTimeUpdateSentinelBuf
      realTimeUpdateSentinel true [] (by decide) 0 (by decide)⟩,
   C4_invalid_sector_normalized.2.2.2 0 []⟩

/-- C2: the entry-list refresh is rate limited.  If a refresh attempt at
t1 fires (at least one second after the previous request), then a second
attempt at t2 sends nothing and leaves the timestamp at t1 when
t2 - t1 is under one second, and sends a second request and moves the
timestamp to t2 when t2 - t1 exceeds one second; so two attempts under a
second apart write exactly one request, and two attempts more than a
second apart write exactly two. -/
theorem C2_entry_list_request_rate_limited (c : Client) (cid t1 t2 : Int)
    (h1 : timeSecond ≤ t1 - c.lastEntryListRequest) :
    ((sendReqEntryList c t1 cid).1.lastEntryListRequest = t1 ∧
     (sendReqEntryList c t1 cid).2.2 =
       [Event.sentFrame (MarshalEntryListReq [] cid).1]) ∧
    (t2 - t1 < timeSecond →
      (sendReqEntryList (sendReqEntryList c t1 cid).1 t2 cid).2.2 = [] ∧
      (sendReqEntryList (sendReqEntryList c t1 cid).1 t2 cid).1.lastEntryListRequest = t1) ∧
    (timeSecond < t2 - t1 →
      (sendReqEntryList (sendReqEntryList c t1 cid).1 t2 cid).2.2 =
        [Event.sentFrame (MarshalEntryListReq [] cid).1] ∧
      (sendReqEntryList (sendReqEntryList c t1 cid).1 t2 cid).1.lastEntryListRequest = t2) := by
  have hok : (MarshalEntryListReq [] cid).2 = true := rfl
  have hfirst : sendReqEntryList c t1 cid =
      ({ c with lastEntryListRequest := t1 }, false,
       [Event.sentFrame (MarshalEntryListReq [] cid).1]) := by
    unfold sendReqEntryList
    rw [if_neg (by omega), if_pos hok]
  refine ⟨by rw [hfirst]; exact ⟨rfl, rfl⟩, ?_, ?_⟩
  · intro hlt
    rw [hfirst]
    unfold sendReqEntryList
    rw [if_pos (by simpa using hlt)]
    exact ⟨rfl, rfl⟩
  · intro hgt
    rw [hfirst]
    unfold sendReqEntryList
    rw [if_neg (by simpa using by omega : ¬ t2 - ({ c with lastEntryListRequest := t1 } : Client).lastEntryListRequest < timeSecond), if_pos hok]
    exact ⟨rfl, rfl⟩

/-- Witness for C2 at concrete times one second apart and beyond. -/
theorem C2_witness :
    timeSecond ≤ timeSecond - clientAll.lastEntryListRequest ∧
    (sendReqEntryList clientAll timeSecond 0).1.lastEntryListRequest = timeSecond ∧
    (sendReqEntryList clientAll timeSecond 0).2.2 =
      [Event.sentFrame (MarshalEntryListReq [] 0).1] ∧
    ((timeSecond + 1) - timeSecond < timeSecond →
      (sendReqEntryList (sendReqEntryList clientAll timeSecond 0).1 (timeSecond + 1) 0).2.2 = []) := by
  have h := C2_entry_list_request_rate_limited clientAll 0 timeSecond (timeSecond + 1)
    (by decide)
  exact ⟨by decide, h.1.1, h.1.2, fun hlt => (h.2.1 hlt).1⟩

/-- C8: a read that fills the whole receive buffer (any datagram of at
least ReadBufferSize bytes) takes the fatal path before any parsing, and
a read strictly smaller than the buffer never takes it. -/
theorem C8_buffer_full_is_fatal (c : Client) (now : Int) (d : List Nat) :
    (ReadBufferSize ≤ d.length → connectAndRunStep c now d = .fatal) ∧
    (d.length < ReadBufferSize → connectAndRunStep c now d ≠ .fatal) := by
  constructor
  · intro h
    unfold connectAndRunStep
    rw [if_pos (by omega : min d.length ReadBufferSize = ReadBufferSize)]
  · intro h
    unfold connectAndRunStep
    rw [if_neg (by omega : ¬ min d.length ReadBufferSize = ReadBufferSize)]
    generalize d.take (min d.length ReadBufferSize) = data
    match data with
    | [] => simp [handleDatagram]
    | msgType :: payload =>
      simp only [handleDatagram, handleMsg]
      repeat' split
      all_goals intro hcontra
      all_goals exact StepOutcome.noConfusion hcontra

/-- Witness for C8: a buffer-filling datagram is fatal, a one-byte
datagram is not. -/
theorem C8_witness :
    connectAndRunStep clientAll 0 (List.replicate ReadBufferSize 9) = .fatal ∧
    connectAndRunStep clientAll 0 [9] ≠ .fatal :=
  ⟨(C8_buffer_full_is_fatal clientAll 0 _).1
     (by rw [List.length_replicate]),
   (C8_buffer_full_is_fatal clientAll 0 [9]).2 (by decide)⟩

/-- Counterexample for C6: with no OnEntryList handler registered, the
EntryList datagram for the list [0] leaves the cache empty and emits
nothing, and a subsequent car update for the listed id 0 is still
suppressed — the replacement does not happen on every EntryList receipt
regardless of registered handlers. -/
theorem C6_counterexample_no_handler_no_replacement :
    (UnmarshalEntryListRep (entryListDatagram.drop 1)).2.1 = [0] ∧
    runSteps clientNoEntryListHandler []
      [(0, entryListDatagram), (0, carUpdateDatagram)] =
      .finished clientNoEntryListHandler [] := by
  constructor
  · decide
  · decide

/-- C6 (amended): receiving an EntryList datagram replaces the cached
entry list with the decoded id list and dispatches it — whenever an
OnEntryList handler is registered, since the source guards the whole
case, cache update included, by OnEntryList != nil. -/
theorem C6_entry_list_replaces_cache (c : Client) (now : Int) (payload : List Nat)
    (hreg : c.hasOnEntryList = true)
    (hlen : payload.length + 1 < ReadBufferSize) :
    connectAndRunStep c now (EntryListMsgType :: payload) =
      .next { c with entryList := some (UnmarshalEntryListRep payload).2.1 }
        [.onEntryList (UnmarshalEntryListRep payload).2.1] := by
  have hmin : min (EntryListMsgType :: payload).length ReadBufferSize =
      (EntryListMsgType :: payload).length := by
    simp only [List.length_cons]
    omega
  unfold connectAndRunStep
  rw [hmin, if_neg (by simp only [List.length_cons]; omega), List.take_length]
  simp only [handleDatagram, handleMsg, RegistrationResultMsgType,
    RealtimeUpdateMsgType, RealtimeCarUpdateMsgType, EntryListMsgType, hreg]
  norm_num

/-- Witness for the amended C6 at the concrete one-car entry list. -/
theorem C6_witness :
    clientAll.hasOnEntryList = true ∧
    ([0, 0, 0, 0, 1, 0, 0, 0] : List Nat).length + 1 < ReadBufferSize ∧
    connectAndRunStep clientAll 0 (EntryListMsgType :: [0, 0, 0, 0, 1, 0, 0, 0]) =
      .next { clientAll with
                entryList := some (UnmarshalEntryListRep [0, 0, 0, 0, 1, 0, 0, 0]).2.1 }
        [.onEntryList (UnmarshalEntryListRep [0, 0, 0, 0, 1, 0, 0, 0]).2.1] :=
  ⟨rfl, by decide, C6_entry_list_replaces_cache clientAll 0 _ rfl (by decide)⟩

/-- C5 (the code violates it): a datagram whose payload fails to decode
(decode reports ok=false) is dispatched anyway — the read loop ignores
the ok flag and invokes the handler with the partially populated
zero-value structure, both for a real-time update and for an entry-list
car message, instead of dropping the message. -/
theorem C5_dispatch_despite_decode_failure :
    unmarshalRealTimeUpdate [] = some (realTimeUpdateZero, false, []) ∧
    connectAndRunStep clientAll 0 [RealtimeUpdateMsgType] =
      .next clientAll [.onRealTimeUpdate realTimeUpdateZero] ∧
    UnmarshalEntryListCarResp [] = some (entryListCarZero, false, []) ∧
    connectAndRunStep clientAll 0 [EntryListCarMsgType] =
      .next clientAll [.onEntryListCar entryListCarZero] :=
  ⟨by decide, by decide, by decide, by decide⟩

/-- C1 (the code violates it): with every handler registered, after the
EntryList message alone — no EntryListCar message for car 0 was ever
received, so no entry list is fully received — a RealtimeCarUpdate for
car 0 is already delivered to the handler: the gate consults only the id
vector of the last EntryList message and never waits for the per-car
EntryListCar messages, contrary to the coherency contract stated in the
source's own doc comment. -/
theorem C1_delivered_without_entry_list_car :
    runSteps clientAll [] [(0, entryListDatagram), (0, carUpdateDatagram)] =
      .finished { clientAll with entryList := some [0] }
        [.onEntryList [0], .onRealTimeCarUpdate carUpdateZero] := by
  decide

theorem rdRaw_short (w : Nat) (buf : List Nat) (h : buf.length < w) :
    rdRaw w (true, buf) = ([], (false, [])) := by
  rw [rdRaw_true, if_neg (by omega)]

theorem readU16List_false (k : Nat) (buf : List Nat) :
    readU16List k (false, buf) = (List.replicate k 0, (false, buf)) := by
  induction k with
  | zero => rfl
  | succ n ih => simp [readU16List, rdU16, rdRaw, leVal, ih, List.replicate]

theorem readU16List_short (k : Nat) (buf : List Nat) (h : buf.length < 2 * k) :
    (readU16List k (true, buf)).2.1 = false := by
  induction k generalizing buf with
  | zero => omega
  | succ n ih =>
    show (readU16List n (rdU16 (true, buf)).2).2.1 = false
    by_cases h2 : 2 ≤ buf.length
    · have hr : (rdU16 (true, buf)).2 = (true, buf.drop 2) := by
        simp only [rdU16, rdRaw_true, if_pos h2]
      rw [hr]
      exact ih (buf.drop 2) (by simp only [List.length_drop]; omega)
    · have hr : (rdU16 (true, buf)).2 = (false, []) := by
        simp only [rdU16, rdRaw_short 2 buf (by omega)]
      rw [hr, readU16List_false]

theorem entryListRep_short6 (buf : List Nat) (h : buf.length < 6) :
    (UnmarshalEntryListRep buf).2.2.1 = false := by
  by_cases h4 : buf.length < 4
  · simp only [UnmarshalEntryListRep, rdI32, rdU16, rdRaw_short 4 buf h4,
      rdRaw_false]
    rfl
  · have hi : (rdI32 (true, buf)).2 = (true, buf.drop 4) := by
      simp only [rdI32, rdRaw_true, if_pos (by omega : 4 ≤ buf.length)]
    have hu : rdRaw 2 (true, buf.drop 4) = ([], (false, [])) :=
      rdRaw_short 2 _ (by simp only [List.length_drop]; omega)
    simp only [UnmarshalEntryListRep, rdU16, hi, hu]
    rfl

/-! ## Canonical read states

After reading any prefix of fixed-width fields totalling k bytes of b,
the decoder state is (decide (k <= b.length), b.drop k): the flag records
whether every read so far succeeded, and the buffer is the k-byte drop in
every case because a failed read drains the buffer. -/

theorem rdRaw_canonical (w k : Nat) (b : List Nat) :
    (rdRaw w ((decide (k ≤ b.length) : Bool), b.drop k)).2 =
      ((decide (k + w ≤ b.length) : Bool), b.drop (k + w)) := by
  by_cases hk : k ≤ b.length
  · rw [decide_eq_true hk, rdRaw_true]
    by_cases hw : w ≤ (b.drop k).length
    · rw [if_pos hw, List.drop_drop]
      simp only [List.length_drop] at hw
      have h2 : (decide (k + w ≤ b.length) : Bool) = true := by
        simp only [decide_eq_true_eq]
        omega
      rw [h2]
    · rw [if_neg hw]
      simp only [List.length_drop] at hw
      have h2 : (decide (k + w ≤ b.length) : Bool) = false := by
        simp only [decide_eq_false_iff_not]
        omega
      have h3 : b.drop (k + w) = [] := List.drop_eq_nil_of_le (by omega)
      rw [h2, h3]
  · rw [decide_eq_false hk, rdRaw_false]
    have h2 : (decide (k + w ≤ b.length) : Bool) = false := by
      simp only [decide_eq_false_iff_not]
      omega
    have h3 : b.drop k = [] := List.drop_eq_nil_of_le (by omega)
    have h4 : b.drop (k + w) = [] := List.drop_eq_nil_of_le (by omega)
    rw [h2, h3, h4]

theorem rdRaw_fst_canonical1 (k : Nat) (b : List Nat) :
    (rdRaw 1 ((decide (k ≤ b.length) : Bool), b.drop k)).1 = (b.drop k).take 1 := by
  by_cases hk : k ≤ b.length
  · rw [decide_eq_true hk, rdRaw_true]
    by_cases h1 : 1 ≤ (b.drop k).length
    · rw [if_pos h1]
    · rw [if_neg h1]
      have hnil : b.drop k = [] := by
        cases hd : b.drop k with
        | nil => rfl
        | cons x xs =>
          rw [hd] at h1
          simp at h1
      rw [hnil]
      rfl
  · rw [decide_eq_false hk, rdRaw_false]
    have hnil : b.drop k = [] := List.drop_eq_nil_of_le (by omega)
    rw [hnil]
    rfl

theorem start_state (b : List Nat) :
    ((true : Bool), b) = ((decide (0 ≤ b.length) : Bool), b.drop 0) := by
  simp

theorem rdU8_snd_canonical (k m : Nat) (b : List Nat) (h : k + 1 = m) :
    (rdU8 ((decide (k ≤ b.length) : Bool), b.drop k)).2 =
      ((decide (m ≤ b.length) : Bool), b.drop m) := by
  subst h
  exact rdRaw_canonical 1 k b

theorem rdI8_snd_canonical (k m : Nat) (b : List Nat) (h : k + 1 = m) :
    (rdI8 ((decide (k ≤ b.length) : Bool), b.drop k)).2 =
      ((decide (m ≤ b.length) : Bool), b.drop m) := by
  subst h
  exact rdRaw_canonical 1 k b

theorem rdU16_snd_canonical (k m : Nat) (b : List Nat) (h : k + 2 = m) :
    (rdU16 ((decide (k ≤ b.length) : Bool), b.drop k)).2 =
      ((decide (m ≤ b.length) : Bool), b.drop m) := by
  subst h
  exact rdRaw_canonical 2 k b

theorem rdI32_snd_canonical (k m : Nat) (b : List Nat) (h : k + 4 = m) :
    (rdI32 ((decide (k ≤ b.length) : Bool), b.drop k)).2 =
      ((decide (m ≤ b.length) : Bool), b.drop m) := by
  subst h
  exact rdRaw_canonical 4 k b

theorem rdF32_snd_canonical (k m : Nat) (b : List Nat) (h : k + 4 = m) :
    (rdF32 ((decide (k ≤ b.length) : Bool), b.drop k)).2 =
      ((decide (m ≤ b.length) : Bool), b.drop m) := by
  subst h
  exact rdRaw_canonical 4 k b

theorem rdU8_fst_canonical (k : Nat) (b : List Nat) :
    (rdU8 ((decide (k ≤ b.length) : Bool), b.drop k)).1 =
      leVal ((b.drop k).take 1) :=
  congrArg leVal (rdRaw_fst_canonical1 k b)

theorem readSplits_snd_false (k : Nat) (b : List Nat) :
    (readSplits k (false, b)).2 = (false, b) := by
  induction k with
  | zero => rfl
  | succ n ih => simp [readSplits, rdI32, rdRaw_false, ih]

theorem readSplits_snd_canonical (k : Nat) : ∀ (m : Nat) (b : List Nat),
    (readSplits k ((decide (m ≤ b.length) : Bool), b.drop m)).2 =
      ((decide (m + 4 * k ≤ b.length) : Bool), b.drop (m + 4 * k)) := by
  induction k with
  | zero =>
    intro m b
    simp [readSplits]
  | succ n ih =>
    intro m b
    show (readSplits n (rdI32 ((decide (m ≤ b.length) : Bool), b.drop m)).2).2 = _
    have hstep : (rdI32 ((decide (m ≤ b.length) : Bool), b.drop m)).2 =
        ((decide (m + 4 ≤ b.length) : Bool), b.drop (m + 4)) := rdRaw_canonical 4 m b
    rw [hstep, ih (m + 4) b]
    have harith : m + 4 + 4 * n = m + 4 * (n + 1) := by ring
    rw [harith]

theorem readU16List_snd_canonical (k : Nat) : ∀ (m : Nat) (b : List Nat),
    (readU16List k ((decide (m ≤ b.length) : Bool), b.drop m)).2 =
      ((decide (m + 2 * k ≤ b.length) : Bool), b.drop (m + 2 * k)) := by
  induction k with
  | zero =>
    intro m b
    simp [readU16List]
  | succ n ih =>
    intro m b
    show (readU16List n (rdU16 ((decide (m ≤ b.length) : Bool), b.drop m)).2).2 = _
    have hstep : (rdU16 ((decide (m ≤ b.length) : Bool), b.drop m)).2 =
        ((decide (m + 2 ≤ b.length) : Bool), b.drop (m + 2)) := rdRaw_canonical 2 m b
    rw [hstep, ih (m + 2) b]
    have harith : m + 2 + 2 * n = m + 2 * (n + 1) := by ring
    rw [harith]

/-! ## Characterization of the lap and driver sub-decoders -/

theorem unmarshalLap_snd (b : List Nat) :
    (unmarshalLap b).2 = ((wfLap b : Bool), lapSkip b) := by
  show (rdU8 (rdU8 (rdU8 (rdU8 (readSplits
      (rdU8 (rdU16 (rdU16 (rdI32 (true, b)).2).2).2).1
      (rdU8 (rdU16 (rdU16 (rdI32 (true, b)).2).2).2).2).2).2).2).2).2 = _
  rw [start_state b, rdI32_snd_canonical 0 4 b (by norm_num),
    rdU16_snd_canonical 4 6 b (by norm_num),
    rdU16_snd_canonical 6 8 b (by norm_num),
    rdU8_fst_canonical 8 b,
    rdU8_snd_canonical 8 9 b (by norm_num),
    readSplits_snd_canonical (leVal ((b.drop 8).take 1)) 9 b,
    rdU8_snd_canonical (9 + 4 * leVal ((b.drop 8).take 1))
      (10 + 4 * leVal ((b.drop 8).take 1)) b (by ring),
    rdU8_snd_canonical (10 + 4 * leVal ((b.drop 8).take 1))
      (11 + 4 * leVal ((b.drop 8).take 1)) b (by ring),
    rdU8_snd_canonical (11 + 4 * leVal ((b.drop 8).take 1))
      (12 + 4 * leVal ((b.drop 8).take 1)) b (by ring),
    rdU8_snd_canonical (12 + 4 * leVal ((b.drop 8).take 1))
      (13 + 4 * leVal ((b.drop 8).take 1)) b (by ring)]
  rfl

theorem readLapIfOk_snd_true (d : List Nat) :
    (readLapIfOk (true, d)).2 = ((wfLap d : Bool), lapSkip d) := by
  unfold readLapIfOk
  rw [if_pos rfl]
  exact unmarshalLap_snd d

theorem readLapIfOk_snd_false (d : List Nat) :
    (readLapIfOk (false, d)).2 = (false, d) := by
  unfold readLapIfOk
  rw [if_neg (by simp)]

theorem unmarshalLap_ok_iff (b : List Nat) :
    (unmarshalLap b).2.1 = true ↔ wfLap b = true := by
  rw [unmarshalLap_snd]

theorem readDrivers_false (k : Nat) (b : List Nat) :
    readDrivers k (false, b) =
      some (List.replicate k ⟨[], [], [], 0, 0⟩, (false, b)) := by
  induction k with
  | zero => rfl
  | succ n ih => simp [readDrivers, rdStr, rdU8, rdU16, rdRaw_false, leVal, ih,
      List.replicate]

theorem readDrivers_char (k : Nat) : ∀ b : List Nat,
    (readDrivers k (true, b) = none → wfDrivers k b = false) ∧
    (∀ ds okf rest, readDrivers k (true, b) = some (ds, (okf, rest)) →
      okf = wfDrivers k b) := by
  induction k with
  | zero =>
    intro b
    constructor
    · intro h
      exact Option.noConfusion h
    · intro ds okf rest h
      simp only [readDrivers, Option.some.injEq, Prod.mk.injEq] at h
      obtain ⟨-, h2, -⟩ := h
      rw [← h2, wfDrivers]
  | succ n ih =>
    intro b
    cases h1 : readString b with
    | runtimePanic =>
      constructor
      · intro _
        simp [wfDrivers, h1]
      · intro ds okf rest h
        simp only [readDrivers, rdStr, h1] at h
        exact Option.noConfusion h
    | failRead r1 =>
      constructor
      · intro h
        simp only [readDrivers, rdStr, h1, rdU8, rdU16, rdRaw_false,
          readDrivers_false n r1] at h
        exact Option.noConfusion h
      · intro ds okf rest h
        simp only [readDrivers, rdStr, h1, rdU8, rdU16, rdRaw_false,
          readDrivers_false n r1, Option.some.injEq, Prod.mk.injEq] at h
        obtain ⟨-, h2, -⟩ := h
        rw [← h2]
        simp [wfDrivers, h1]
    | okRead s1 r1 =>
      cases h2 : readString r1 with
      | runtimePanic =>
        constructor
        · intro _
          simp [wfDrivers, h1, h2]
        · intro ds okf rest h
          simp only [readDrivers, rdStr, h1, h2] at h
          exact Option.noConfusion h
      | failRead r2 =>
        constructor
        · intro h
          simp only [readDrivers, rdStr, h1, h2, rdU8, rdU16, rdRaw_false,
            readDrivers_false n r2] at h
          exact Option.noConfusion h
        · intro ds okf rest h
          simp only [readDrivers, rdStr, h1, h2, rdU8, rdU16, rdRaw_false,
            readDrivers_false n r2, Option.some.injEq, Prod.mk.injEq] at h
          obtain ⟨-, h3, -⟩ := h
          rw [← h3]
          simp [wfDrivers, h1, h2]
      | okRead s2 r2 =>
        cases h3 : readString r2 with
        | runtimePanic =>
          constructor
          · intro _
            simp [wfDrivers, h1, h2, h3]
          · intro ds okf rest h
            simp only [readDrivers, rdStr, h1, h2, h3] at h
            exact Option.noConfusion h
        | failRead r3 =>
          constructor
          · intro h
            simp only [readDrivers, rdStr, h1, h2, h3, rdU8, rdU16, rdRaw_false,
              readDrivers_false n r3] at h
            exact Option.noConfusion h
          · intro ds okf rest h
            simp only [readDrivers, rdStr, h1, h2, h3, rdU8, rdU16, rdRaw_false,
              readDrivers_false n r3, Option.some.injEq, Prod.mk.injEq] at h
            obtain ⟨-, h4, -⟩ := h
            rw [← h4]
            simp [wfDrivers, h1, h2, h3]
        | okRead s3 r3 =>
          have hfix : (rdU16 (rdU8 (true, r3)).2).2 =
              ((decide (3 ≤ r3.length) : Bool), r3.drop 3) := by
            rw [show ((true : Bool), r3) =
                ((decide (0 ≤ r3.length) : Bool), r3.drop 0) from start_state r3,
              rdU8_snd_canonical 0 1 r3 (by norm_num),
              rdU16_snd_canonical 1 3 r3 (by norm_num)]
          by_cases hlen : 3 ≤ r3.length
          · rw [decide_eq_true hlen] at hfix
            constructor
            · intro h
              simp only [readDrivers, rdStr, h1, h2, h3, hfix] at h
              cases hrd : readDrivers n (true, r3.drop 3) with
              | none =>
                have := (ih (r3.drop 3)).1 hrd
                simp [wfDrivers, h1, h2, h3, this]
              | some v =>
                rw [hrd] at h
                simp at h
            · intro ds okf rest h
              simp only [readDrivers, rdStr, h1, h2, h3, hfix] at h
              cases hrd : readDrivers n (true, r3.drop 3) with
              | none =>
                rw [hrd] at h
                simp at h
              | some v =>
                rw [hrd] at h
                obtain ⟨ds2, okf2, rest2⟩ := v
                have hokf := (ih (r3.drop 3)).2 ds2 okf2 rest2 hrd
                simp only [Option.some.injEq, Prod.mk.injEq] at h
                obtain ⟨-, h5, -⟩ := h
                rw [← h5, hokf]
                simp [wfDrivers, h1, h2, h3, decide_eq_true hlen]
          · rw [decide_eq_false hlen] at hfix
            constructor
            · intro h
              simp only [readDrivers, rdStr, h1, h2, h3, hfix,
                readDrivers_false n (r3.drop 3)] at h
              exact Option.noConfusion h
            · intro ds okf rest h
              simp only [readDrivers, rdStr, h1, h2, h3, hfix,
                readDrivers_false n (r3.drop 3), Option.some.injEq,
                Prod.mk.injEq] at h
              obtain ⟨-, h5, -⟩ := h
              rw [← h5]
              simp [wfDrivers, h1, h2, h3, decide_eq_false hlen]

/-! ## Characterization of each inbound decoder: ok=true exactly on
well-formed payloads -/

theorem trackDataResp_ok_iff (buf : List Nat) :
    (UnmarshalTrackDataResp buf).map (fun r => r.2.2.1) = some true ↔
      wfTrackData buf = true := by
  simp only [UnmarshalTrackDataResp, rdI32, rdRaw_snd_true]
  split
  next heq => simp [wfTrackData, heq]
  next rest heq => simp [wfTrackData, heq, rdRaw_false]
  next s rest heq =>
    rw [start_state rest, rdRaw_canonical 4 0 rest, rdRaw_canonical 4 (0 + 4) rest]
    simp [wfTrackData, heq]

theorem connResp_ok_iff (buf : List Nat) :
    (UnmarshalConnectionResp buf).map (fun r => r.2.2.2.2.1) = some true ↔
      wfConnResp buf = true := by
  have hfix : (rdI8 (rdI8 (rdI32 (true, buf)).2).2).2 =
      ((decide (6 ≤ buf.length) : Bool), buf.drop 6) := by
    rw [start_state buf, rdI32_snd_canonical 0 4 buf (by norm_num),
      rdI8_snd_canonical 4 5 buf (by norm_num),
      rdI8_snd_canonical 5 6 buf (by norm_num)]
  simp only [UnmarshalConnectionResp, hfix]
  by_cases h6 : 6 ≤ buf.length
  · rw [decide_eq_true h6]
    cases hrs : readString (buf.drop 6) with
    | runtimePanic => simp [rdStr, hrs, wfConnResp]
    | failRead rest => simp [rdStr, hrs, wfConnResp]
    | okRead s rest => simp [rdStr, hrs, wfConnResp]
  · rw [decide_eq_false h6]
    have hd : buf.drop 6 = [] := List.drop_eq_nil_of_le (by omega)
    simp [rdStr, wfConnResp, hd, readString]

theorem broadCastEvent_ok_iff (buf : List Nat) :
    (unmarshalBroadCastEvent buf).map (fun r => r.2.1) = some true ↔
      wfBroadCastEvent buf = true := by
  have hfix : (rdU8 (true, buf)).2 =
      ((decide (1 ≤ buf.length) : Bool), buf.drop 1) := by
    rw [start_state buf, rdU8_snd_canonical 0 1 buf (by norm_num)]
  simp only [unmarshalBroadCastEvent, hfix]
  by_cases h1 : 1 ≤ buf.length
  · rw [decide_eq_true h1]
    cases hrs : readString (buf.drop 1) with
    | runtimePanic => simp [rdStr, hrs, wfBroadCastEvent, -List.drop_one]
    | failRead rest =>
      simp [rdStr, hrs, wfBroadCastEvent, rdI32, rdRaw_false, -List.drop_one]
    | okRead s rest =>
      simp only [rdStr, hrs]
      rw [start_state rest, rdI32_snd_canonical 0 4 rest (by norm_num),
        rdI32_snd_canonical 4 8 rest (by norm_num)]
      simp [wfBroadCastEvent, hrs, -List.drop_one]
  · rw [decide_eq_false h1]
    have hd : buf.drop 1 = [] := List.drop_eq_nil_of_le (by omega)
    simp [rdStr, wfBroadCastEvent, hd, readString, rdI32, rdRaw_false,
      -List.drop_one]

theorem entryListRep_ok_iff (buf : List Nat) :
    (UnmarshalEntryListRep buf).2.2.1 = true ↔ wfEntryListRep buf = true := by
  by_cases h6 : 6 ≤ buf.length
  · have hfix : (rdU16 (rdI32 (true, buf)).2).2 =
        ((decide (6 ≤ buf.length) : Bool), buf.drop 6) := by
      rw [start_state buf, rdI32_snd_canonical 0 4 buf (by norm_num),
        rdU16_snd_canonical 4 6 buf (by norm_num)]
    have h4 : (rdI32 (true, buf)).2 = ((true : Bool), buf.drop 4) := by
      rw [start_state buf, rdI32_snd_canonical 0 4 buf (by norm_num),
        decide_eq_true (show 4 ≤ buf.length by omega)]
    have hcnt : (rdU16 (rdI32 (true, buf)).2).1 = leVal ((buf.drop 4).take 2) := by
      rw [h4]
      simp only [rdU16, rdRaw_true,
        if_pos (show 2 ≤ (buf.drop 4).length by
          simp only [List.length_drop]; omega)]
    simp only [UnmarshalEntryListRep, hcnt, hfix,
      readU16List_snd_canonical (leVal ((buf.drop 4).take 2)) 6 buf]
    simp only [wfEntryListRep, decide_eq_true_eq, Bool.and_eq_true,
      List.length_drop]
    omega
  · have hko := entryListRep_short6 buf (by omega)
    simp [hko, wfEntryListRep, h6]

theorem entryListCar_ok_iff (buf : List Nat) :
    (UnmarshalEntryListCarResp buf).map (fun r => r.2.1) = some true ↔
      wfEntryListCar buf = true := by
  have hfix : (rdU8 (rdU16 (true, buf)).2).2 =
      ((decide (3 ≤ buf.length) : Bool), buf.drop 3) := by
    rw [start_state buf, rdU16_snd_canonical 0 2 buf (by norm_num),
      rdU8_snd_canonical 2 3 buf (by norm_num)]
  simp only [UnmarshalEntryListCarResp, hfix]
  by_cases h3 : 3 ≤ buf.length
  · rw [decide_eq_true h3]
    cases hrs : readString (buf.drop 3) with
    | runtimePanic => simp [rdStr, hrs, wfEntryListCar]
    | failRead rest =>
      simp [rdStr, hrs, rdU8, rdU16, rdI8, rdI32, rdRaw_false,
        readDrivers_false, wfEntryListCar, leVal]
    | okRead s rest =>
      simp only [rdStr, hrs]
      have h8fix : (rdU16 (rdI8 (rdU8 (rdI32 (true, rest)).2).2).2).2 =
          ((decide (8 ≤ rest.length) : Bool), rest.drop 8) := by
        rw [start_state rest, rdI32_snd_canonical 0 4 rest (by norm_num),
          rdU8_snd_canonical 4 5 rest (by norm_num),
          rdI8_snd_canonical 5 6 rest (by norm_num),
          rdU16_snd_canonical 6 8 rest (by norm_num)]
      rw [h8fix, rdU8_fst_canonical 8 rest, rdU8_snd_canonical 8 9 rest (by norm_num)]
      by_cases h9 : 9 ≤ rest.length
      · rw [decide_eq_true h9]
        cases hrd : readDrivers (leVal ((rest.drop 8).take 1)) (true, rest.drop 9) with
        | none =>
          have hwf := (readDrivers_char _ (rest.drop 9)).1 hrd
          simp [wfEntryListCar, hrs, hwf, h9]
        | some v =>
          obtain ⟨ds, okf, rest2⟩ := v
          have hokf := (readDrivers_char _ (rest.drop 9)).2 ds okf rest2 hrd
          simp [wfEntryListCar, hrs, hokf, h9]
      · rw [decide_eq_false h9]
        simp [readDrivers_false, wfEntryListCar, hrs, h9]
  · rw [decide_eq_false h3]
    have hd : buf.drop 3 = [] := List.drop_eq_nil_of_le (by omega)
    simp [rdStr, wfEntryListCar, hd, readString, rdU8, rdU16, rdI8, rdI32,
      rdRaw_false, readDrivers_false, leVal]

set_option maxHeartbeats 4000000 in
theorem realTimeUpdate_ok_iff (buf : List Nat) :
    (unmarshalRealTimeUpdate buf).map (fun r => r.2.1) = some true ↔
      wfRealTimeUpdate buf = true := by
  have hfix : (rdI32 (rdF32 (rdF32 (rdU8 (rdU8 (rdU16 (rdU16
      (true, buf)).2).2).2).2).2).2).2 =
      ((decide (18 ≤ buf.length) : Bool), buf.drop 18) := by
    rw [start_state buf, rdU16_snd_canonical 0 2 buf (by norm_num),
      rdU16_snd_canonical 2 4 buf (by norm_num),
      rdU8_snd_canonical 4 5 buf (by norm_num),
      rdU8_snd_canonical 5 6 buf (by norm_num),
      rdF32_snd_canonical 6 10 buf (by norm_num),
      rdF32_snd_canonical 10 14 buf (by norm_num),
      rdI32_snd_canonical 14 18 buf (by norm_num)]
  simp only [unmarshalRealTimeUpdate, hfix]
  by_cases h18 : 18 ≤ buf.length
  · rw [decide_eq_true h18]
    cases hrs1 : readString (buf.drop 18) with
    | runtimePanic => simp [rdStr, hrs1, wfRealTimeUpdate]
    | failRead r1 =>
      simp [rdStr, hrs1, rdU8, rdI8, rdF32, rdI32, rdRaw_false, readLapIfOk,
        wfRealTimeUpdate, leVal]
    | okRead s1 r1 =>
      simp only [rdStr, hrs1]
      cases hrs2 : readString r1 with
      | runtimePanic => simp [rdStr, hrs2, wfRealTimeUpdate, hrs1]
      | failRead r2 =>
        simp [rdStr, hrs2, rdU8, rdI8, rdF32, rdI32, rdRaw_false, readLapIfOk,
          wfRealTimeUpdate, hrs1, leVal]
      | okRead s2 r2 =>
        simp only [rdStr, hrs2]
        cases hrs3 : readString r2 with
        | runtimePanic => simp [rdStr, hrs3, wfRealTimeUpdate, hrs1, hrs2]
        | failRead r3 =>
          simp [rdStr, hrs3, rdU8, rdI8, rdF32, rdI32, rdRaw_false, readLapIfOk,
            wfRealTimeUpdate, hrs1, hrs2, leVal]
        | okRead s3 r3 =>
          simp only [rdStr, hrs3]
          cases r3 with
          | nil =>
            simp [rdU8, rdI8, rdF32, rdI32, rdRaw, readLapIfOk, leVal,
              wfRealTimeUpdate, hrs1, hrs2, hrs3]
          | cons flag r4 =>
            rw [rdU8_cons flag r4]
            by_cases hf : 0 < flag
            · rw [if_pos hf]
              have h17 : (rdU8 (rdU8 (rdU8 (rdI8 (rdI8 (rdF32 (rdI32 (rdI32
                  (true, r4)).2).2).2).2).2).2).2).2 =
                  ((decide (17 ≤ r4.length) : Bool), r4.drop 17) := by
                rw [start_state r4, rdI32_snd_canonical 0 4 r4 (by norm_num),
                  rdI32_snd_canonical 4 8 r4 (by norm_num),
                  rdF32_snd_canonical 8 12 r4 (by norm_num),
                  rdI8_snd_canonical 12 13 r4 (by norm_num),
                  rdI8_snd_canonical 13 14 r4 (by norm_num),
                  rdU8_snd_canonical 14 15 r4 (by norm_num),
                  rdU8_snd_canonical 15 16 r4 (by norm_num),
                  rdU8_snd_canonical 16 17 r4 (by norm_num)]
              rw [h17]
              by_cases h17len : 17 ≤ r4.length
              · rw [decide_eq_true h17len, readLapIfOk_snd_true (r4.drop 17)]
                simp [wfRealTimeUpdate, hrs1, hrs2, hrs3, hf, h17len]
              · rw [decide_eq_false h17len, readLapIfOk_snd_false]
                simp [wfRealTimeUpdate, hrs1, hrs2, hrs3, hf, h17len]
            · rw [if_neg hf]
              have h9 : (rdU8 (rdU8 (rdU8 (rdI8 (rdI8 (rdF32
                  (true, r4)).2).2).2).2).2).2 =
                  ((decide (9 ≤ r4.length) : Bool), r4.drop 9) := by
                rw [start_state r4, rdF32_snd_canonical 0 4 r4 (by norm_num),
                  rdI8_snd_canonical 4 5 r4 (by norm_num),
                  rdI8_snd_canonical 5 6 r4 (by norm_num),
                  rdU8_snd_canonical 6 7 r4 (by norm_num),
                  rdU8_snd_canonical 7 8 r4 (by norm_num),
                  rdU8_snd_canonical 8 9 r4 (by norm_num)]
              rw [h9]
              by_cases h9len : 9 ≤ r4.length
              · rw [decide_eq_true h9len, readLapIfOk_snd_true (r4.drop 9)]
                simp [wfRealTimeUpdate, hrs1, hrs2, hrs3, hf, h9len]
              · rw [decide_eq_false h9len, readLapIfOk_snd_false]
                simp [wfRealTimeUpdate, hrs1, hrs2, hrs3, hf, h9len]
  · rw [decide_eq_false h18]
    have hd : buf.drop 18 = [] := List.drop_eq_nil_of_le (by omega)
    simp [rdStr, wfRealTimeUpdate, hd, readString, rdU8, rdI8, rdF32, rdI32,
      rdRaw_false, readLapIfOk, leVal]

set_option maxHeartbeats 4000000 in
theorem carUpdate_ok_iff (buf : List Nat) :
    (UnmarshalCarUpdateResp buf).2.1 = true ↔ wfCarUpdate buf = true := by
  have h37 : (rdI32 (rdU16 (rdF32 (rdU16 (rdU16 (rdU16 (rdU16 (rdU8 (rdF32
      (rdF32 (rdF32 (rdI8 (rdU8 (rdU16 (rdU16
      (true, buf)).2).2).2).2).2).2).2).2).2).2).2).2).2).2).2 =
      ((decide (37 ≤ buf.length) : Bool), buf.drop 37) := by
    rw [start_state buf,
      rdU16_snd_canonical 0 2 buf (by norm_num),
      rdU16_snd_canonical 2 4 buf (by norm_num),
      rdU8_snd_canonical 4 5 buf (by norm_num),
      rdI8_snd_canonical 5 6 buf (by norm_num),
      rdF32_snd_canonical 6 10 buf (by norm_num),
      rdF32_snd_canonical 10 14 buf (by norm_num),
      rdF32_snd_canonical 14 18 buf (by norm_num),
      rdU8_snd_canonical 18 19 buf (by norm_num),
      rdU16_snd_canonical 19 21 buf (by norm_num),
      rdU16_snd_canonical 21 23 buf (by norm_num),
      rdU16_snd_canonical 23 25 buf (by norm_num),
      rdU16_snd_canonical 25 27 buf (by norm_num),
      rdF32_snd_canonical 27 31 buf (by norm_num),
      rdU16_snd_canonical 31 33 buf (by norm_num),
      rdI32_snd_canonical 33 37 buf (by norm_num)]
  simp only [UnmarshalCarUpdateResp, h37]
  by_cases hl : 37 ≤ buf.length
  · rw [decide_eq_true hl, readLapIfOk_snd_true (buf.drop 37)]
    by_cases hL1 : wfLap (buf.drop 37) = true
    · rw [hL1, readLapIfOk_snd_true (lapSkip (buf.drop 37))]
      by_cases hL2 : wfLap (lapSkip (buf.drop 37)) = true
      · rw [hL2, readLapIfOk_snd_true (lapSkip (lapSkip (buf.drop 37)))]
        simp [wfCarUpdate, hl, hL1, hL2]
      · have hL2f : wfLap (lapSkip (buf.drop 37)) = false := by
          simpa using hL2
        rw [hL2f, readLapIfOk_snd_false]
        simp [wfCarUpdate, hl, hL1, hL2f]
    · have hL1f : wfLap (buf.drop 37) = false := by simpa using hL1
      rw [hL1f, readLapIfOk_snd_false, readLapIfOk_snd_false]
      simp [wfCarUpdate, hl, hL1f]
  · rw [decide_eq_false hl, readLapIfOk_snd_false, readLapIfOk_snd_false,
      readLapIfOk_snd_false]
    simp [wfCarUpdate, hl]

/-- C7: decodes are strict sequential reads of the fields in protocol
order: for every inbound decoder the ok result is true exactly when every
field in protocol order can be read from the buffer (the wf predicates
spell out the wire layout field by field), so whenever any field in that
order cannot be read the decoder reports ok=false.  In particular
UnmarshalTrackDataResp reports ok=false whenever reading the connection
id, the track name, the track id or the length in meters fails — the
connection-id case holds even though the source overwrites ok at the name
read, because a failed connection-id read drains the buffer and the name
read then fails as well — and UnmarshalEntryListRep reports ok=false when
the connection id or the count cannot be read or when the buffer holds
fewer than the counted ids. -/
theorem C7_short_read_reports_not_ok (buf : List Nat) :
    ((UnmarshalConnectionResp buf).map (fun r => r.2.2.2.2.1) = some true ↔
      wfConnResp buf = true) ∧
    ((unmarshalRealTimeUpdate buf).map (fun r => r.2.1) = some true ↔
      wfRealTimeUpdate buf = true) ∧
    ((UnmarshalCarUpdateResp buf).2.1 = true ↔ wfCarUpdate buf = true) ∧
    ((UnmarshalEntryListRep buf).2.2.1 = true ↔ wfEntryListRep buf = true) ∧
    ((UnmarshalEntryListCarResp buf).map (fun r => r.2.1) = some true ↔
      wfEntryListCar buf = true) ∧
    ((UnmarshalTrackDataResp buf).map (fun r => r.2.2.1) = some true ↔
      wfTrackData buf = true) ∧
    ((unmarshalBroadCastEvent buf).map (fun r => r.2.1) = some true ↔
      wfBroadCastEvent buf = true) ∧
    ((unmarshalLap buf).2.1 = true ↔ wfLap buf = true) ∧
    (buf.length < 4 →
      (UnmarshalTrackDataResp buf).map (fun r => r.2.2.1) = some false) ∧
    (∀ r, readString (buf.drop 4) = .failRead r →
      (UnmarshalTrackDataResp buf).map (fun r => r.2.2.1) = some false) ∧
    (∀ s r, readString (buf.drop 4) = .okRead s r → r.length < 4 →
      (UnmarshalTrackDataResp buf).map (fun r => r.2.2.1) = some false) ∧
    (∀ s r, readString (buf.drop 4) = .okRead s r → (r.drop 4).length < 4 →
      (UnmarshalTrackDataResp buf).map (fun r => r.2.2.1) = some false) ∧
    (buf.length < 6 → (UnmarshalEntryListRep buf).2.2.1 = false) ∧
    ((buf.drop 6).length < 2 * leVal ((buf.drop 4).take 2) →
      (UnmarshalEntryListRep buf).2.2.1 = false) ∧
    (buf.length < 4 →
      (UnmarshalConnectionResp buf).map (fun r => r.2.2.2.2.1) = some false) ∧
    (buf.length < 2 →
      (unmarshalRealTimeUpdate buf).map (fun r => r.2.1) = some false) ∧
    (buf.length < 2 → (UnmarshalCarUpdateResp buf).2.1 = false) ∧
    (buf.length < 2 →
      (UnmarshalEntryListCarResp buf).map (fun r => r.2.1) = some false) ∧
    (buf.length < 1 →
      (unmarshalBroadCastEvent buf).map (fun r => r.2.1) = some false) := by
  refine ⟨connResp_ok_iff buf, realTimeUpdate_ok_iff buf, carUpdate_ok_iff buf,
    entryListRep_ok_iff buf, entryListCar_ok_iff buf, trackDataResp_ok_iff buf,
    broadCastEvent_ok_iff buf, unmarshalLap_ok_iff buf,
    ?_, ?_, ?_, ?_, entryListRep_short6 buf, ?_, ?_, ?_, ?_, ?_, ?_⟩
  · intro h
    have hd : buf.drop 4 = [] := List.drop_eq_nil_of_le (by omega)
    have hrs : readString (buf.drop 4) = .failRead [] := by
      rw [hd, readString, if_neg (by simp)]
    simp only [UnmarshalTrackDataResp, rdI32, rdRaw_snd_true, hrs, rdRaw_false]
    rfl
  · intro r hread
    simp only [UnmarshalTrackDataResp, rdI32, rdRaw_snd_true, hread, rdRaw_false]
    rfl
  · intro s r hread hlen
    simp only [UnmarshalTrackDataResp, rdI32, rdRaw_snd_true, hread]
    simp only [rdRaw_short 4 r hlen, rdRaw_false]
    rfl
  · intro s r hread hlen
    by_cases h4 : r.length < 4
    · simp only [UnmarshalTrackDataResp, rdI32, rdRaw_snd_true, hread]
      simp only [rdRaw_short 4 r h4, rdRaw_false]
      rfl
    · have hi : rdRaw 4 (true, r) = (r.take 4, (true, r.drop 4)) := by
        rw [rdRaw_true, if_pos (by omega)]
      simp only [UnmarshalTrackDataResp, rdI32, rdRaw_snd_true, hread]
      simp only [hi, rdRaw_short 4 (r.drop 4) hlen]
      rfl
  · intro hcnt
    by_cases h6 : buf.length < 6
    · exact entryListRep_short6 buf h6
    · have hi : (rdI32 (true, buf)).2 = (true, buf.drop 4) := by
        simp only [rdI32, rdRaw_true, if_pos (by omega : 4 ≤ buf.length)]
      have hu : rdRaw 2 (true, buf.drop 4) =
          ((buf.drop 4).take 2, (true, (buf.drop 4).drop 2)) := by
        rw [rdRaw_true, if_pos (by simp only [List.length_drop]; omega)]
      have hdd : (buf.drop 4).drop 2 = buf.drop 6 := by
        rw [List.drop_drop]
      simp only [UnmarshalEntryListRep, rdU16, hi, hu, hdd]
      exact readU16List_short _ _ hcnt
  · intro h
    simp only [UnmarshalConnectionResp, rdI32, rdI8,
      rdRaw_short 4 buf h, rdRaw_false, rdStr]
    rfl
  · intro h
    have h1 : rdU16 (true, buf) = (0, (false, [])) := by
      simp only [rdU16, rdRaw_short 2 buf h]
      rfl
    unfold unmarshalRealTimeUpdate
    rw [h1]
    rfl
  · intro h
    have h1 : rdU16 (true, buf) = (0, (false, [])) := by
      simp only [rdU16, rdRaw_short 2 buf h]
      rfl
    unfold UnmarshalCarUpdateResp
    rw [h1]
    rfl
  · intro h
    have h1 : rdU16 (true, buf) = (0, (false, [])) := by
      simp only [rdU16, rdRaw_short 2 buf h]
      rfl
    unfold UnmarshalEntryListCarResp
    rw [h1]
    rfl
  · intro h
    have hb : buf = [] := List.eq_nil_of_length_eq_zero (by omega)
    subst hb
    decide

/-- Witness for C7: positive instances of every decoder characterization
at well-formed payloads, a mid-message short read (7-byte registration
result whose error-message header cannot be read), and concrete short
buffers for each failing field of the named decoders. -/
theorem C7_witness :
    ((UnmarshalConnectionResp [1, 0, 0, 0, 1, 0, 0, 0]).map
        (fun r => r.2.2.2.2.1) = some true) ∧
    ((unmarshalRealTimeUpdate realTimeUpdateSentinelBuf).map
        (fun r => r.2.1) = some true) ∧
    ((UnmarshalCarUpdateResp (List.replicate 76 0)).2.1 = true) ∧
    ((UnmarshalEntryListRep [0, 0, 0, 0, 1, 0, 0, 0]).2.2.1 = true) ∧
    ((UnmarshalEntryListCarResp
        [1, 0, 2, 1, 0, 65, 5, 0, 0, 0, 0, 0, 0, 0, 1,
         1, 0, 66, 0, 0, 0, 0, 0, 0, 0]).map (fun r => r.2.1) = some true) ∧
    ((UnmarshalTrackDataResp
        [7, 0, 0, 0, 2, 0, 65, 66, 1, 0, 0, 0, 3, 0, 0, 0]).map
        (fun r => r.2.2.1) = some true) ∧
    ((unmarshalBroadCastEvent [1, 2, 0, 65, 66, 9, 0, 0, 0, 3, 0, 0, 0]).map
        (fun r => r.2.1) = some true) ∧
    ((unmarshalLap lapSentinelBuf).2.1 = true) ∧
    ((UnmarshalConnectionResp [1, 0, 0, 0, 1, 0, 2]).map
        (fun r => r.2.2.2.2.1) ≠ some true) ∧
    ((UnmarshalTrackDataResp [0, 0]).map (fun r => r.2.2.1) = some false) ∧
    (readString (([0, 0, 0, 0, 0] : List Nat).drop 4) = .failRead [] ∧
      (UnmarshalTrackDataResp [0, 0, 0, 0, 0]).map (fun r => r.2.2.1) = some false) ∧
    (readString (([0, 0, 0, 0, 0, 0] : List Nat).drop 4) = .okRead [] [] ∧
      (UnmarshalTrackDataResp [0, 0, 0, 0, 0, 0]).map (fun r => r.2.2.1) = some false) ∧
    (readString (([0, 0, 0, 0, 0, 0, 0, 0, 0, 0] : List Nat).drop 4) =
        .okRead [] [0, 0, 0, 0] ∧
      (UnmarshalTrackDataResp [0, 0, 0, 0, 0, 0, 0, 0, 0, 0]).map
        (fun r => r.2.2.1) = some false) ∧
    ((UnmarshalEntryListRep [0, 0, 0, 0, 0]).2.2.1 = false) ∧
    ((UnmarshalEntryListRep [0, 0, 0, 0, 2, 0]).2.2.1 = false) ∧
    ((UnmarshalConnectionResp [0]).map (fun r => r.2.2.2.2.1) = some false) ∧
    ((unmarshalRealTimeUpdate [0]).map (fun r => r.2.1) = some false) ∧
    ((UnmarshalCarUpdateResp [0]).2.1 = false) ∧
    ((UnmarshalEntryListCarResp [0]).map (fun r => r.2.1) = some false) ∧
    ((unmarshalBroadCastEvent []).map (fun r => r.2.1) = some false) :=
  ⟨(C7_short_read_reports_not_ok [1, 0, 0, 0, 1, 0, 0, 0]).1.mpr (by decide),
   (C7_short_read_reports_not_ok realTimeUpdateSentinelBuf).2.1.mpr (by decide),
   (C7_short_read_reports_not_ok (List.replicate 76 0)).2.2.1.mpr (by decide),
   (C7_short_read_reports_not_ok [0, 0, 0, 0, 1, 0, 0, 0]).2.2.2.1.mpr (by decide),
   (C7_short_read_reports_not_ok
     [1, 0, 2, 1, 0, 65, 5, 0, 0, 0, 0, 0, 0, 0, 1,
      1, 0, 66, 0, 0, 0, 0, 0, 0, 0]).2.2.2.2.1.mpr (by decide),
   (C7_short_read_reports_not_ok
     [7, 0, 0, 0, 2, 0, 65, 66, 1, 0, 0, 0, 3, 0, 0, 0]).2.2.2.2.2.1.mpr (by decide),
   (C7_short_read_reports_not_ok
     [1, 2, 0, 65, 66, 9, 0, 0, 0, 3, 0, 0, 0]).2.2.2.2.2.2.1.mpr (by decide),
   (C7_short_read_reports_not_ok lapSentinelBuf).2.2.2.2.2.2.2.1.mpr (by decide),
   fun h => absurd ((C7_short_read_reports_not_ok [1, 0, 0, 0, 1, 0, 2]).1.mp h)
     (by decide),
   (C7_short_read_reports_not_ok [0, 0]).2.2.2.2.2.2.2.2.1 (by decide),
   ⟨by decide, (C7_short_read_reports_not_ok [0, 0, 0, 0, 0]).2.2.2.2.2.2.2.2.2.1
     [] (by decide)⟩,
   ⟨by decide, (C7_short_read_reports_not_ok
     [0, 0, 0, 0, 0, 0]).2.2.2.2.2.2.2.2.2.2.1 [] [] (by decide) (by decide)⟩,
   ⟨by decide, (C7_short_read_reports_not_ok
     [0, 0, 0, 0, 0, 0, 0, 0, 0, 0]).2.2.2.2.2.2.2.2.2.2.2.1
     [] [0, 0, 0, 0] (by decide) (by decide)⟩,
   (C7_short_read_reports_not_ok [0, 0, 0, 0, 0]).2.2.2.2.2.2.2.2.2.2.2.2.1
     (by decide),
   (C7_short_read_reports_not_ok [0, 0, 0, 0, 2, 0]).2.2.2.2.2.2.2.2.2.2.2.2.2.1
     (by decide),
   (C7_short_read_reports_not_ok [0]).2.2.2.2.2.2.2.2.2.2.2.2.2.2.1 (by decide),
   (C7_short_read_reports_not_ok [0]).2.2.2.2.2.2.2.2.2.2.2.2.2.2.2.1 (by decide),
   (C7_short_read_reports_not_ok [0]).2.2.2.2.2.2.2.2.2.2.2.2.2.2.2.2.1 (by decide),
   (C7_short_read_reports_not_ok [0]).2.2.2.2.2.2.2.2.2.2.2.2.2.2.2.2.2.1 (by decide),
   (C7_short_read_reports_not_ok []).2.2.2.2.2.2.2.2.2.2.2.2.2.2.2.2.2.2 (by decide)⟩

end ACCBroadcast
